import Mathlib

/-!
Verification of the `dbrowser` repository: two keyboard-driven browser
shells, `browser.py` (GTK/WebKit2) and `qtbrowser.py` (Qt/WebEngine).

The Python sources are shallowly embedded: external inputs that the
handlers consult (tmux buffer, clipboard, dmenu results, bookmarks file,
environment variables, the random generator) become explicit parameters,
and every side-effecting library call becomes a constructor of an
`Effect` list produced by the handler.  Machine-level details that the
code never relies on (Unicode classes beyond ASCII in `str.isalnum`,
float formatting of zoom levels) are modelled at the granularity the
source uses them.
-/

namespace DBrowser

/-! ## Key and modifier constants (Gdk 3 and Qt 6 numeric values) -/

namespace Gdk

abbrev SHIFT_MASK : Nat := 1
abbrev CONTROL_MASK : Nat := 4
abbrev MOD1_MASK : Nat := 8

abbrev KEY_F1 : Nat := 65470
abbrev KEY_F5 : Nat := 65474
abbrev KEY_F12 : Nat := 65481
abbrev KEY_Left : Nat := 65361
abbrev KEY_Right : Nat := 65363
abbrev KEY_comma : Nat := 44
abbrev KEY_period : Nat := 46
abbrev KEY_plus : Nat := 43
abbrev KEY_equal : Nat := 61
abbrev KEY_minus : Nat := 45
abbrev KEY_0 : Nat := 48
abbrev KEY_b : Nat := 98
abbrev KEY_f : Nat := 102
abbrev KEY_g : Nat := 103
abbrev KEY_h : Nat := 104
abbrev KEY_i : Nat := 105
abbrev KEY_j : Nat := 106
abbrev KEY_k : Nat := 107
abbrev KEY_l : Nat := 108
abbrev KEY_n : Nat := 110
abbrev KEY_p : Nat := 112
abbrev KEY_q : Nat := 113
abbrev KEY_r : Nat := 114
abbrev KEY_s : Nat := 115
abbrev KEY_u : Nat := 117
abbrev KEY_C : Nat := 67
abbrev KEY_G : Nat := 71
abbrev KEY_N : Nat := 78
abbrev KEY_P : Nat := 80
abbrev KEY_S : Nat := 83
abbrev KEY_U : Nat := 85

end Gdk

namespace Qt

abbrev ShiftModifier : Nat := 0x02000000
abbrev ControlModifier : Nat := 0x04000000
abbrev AltModifier : Nat := 0x08000000

abbrev Key_F1 : Nat := 0x01000030
abbrev Key_F5 : Nat := 0x01000034
abbrev Key_F12 : Nat := 0x0100003b
abbrev Key_Left : Nat := 0x01000012
abbrev Key_Right : Nat := 0x01000014
abbrev Key_Comma : Nat := 44
abbrev Key_Period : Nat := 46
abbrev Key_Plus : Nat := 43
abbrev Key_Equal : Nat := 61
abbrev Key_Minus : Nat := 45
abbrev Key_0 : Nat := 48
abbrev Key_B : Nat := 66
abbrev Key_C : Nat := 67
abbrev Key_F : Nat := 70
abbrev Key_G : Nat := 71
abbrev Key_H : Nat := 72
abbrev Key_I : Nat := 73
abbrev Key_J : Nat := 74
abbrev Key_K : Nat := 75
abbrev Key_L : Nat := 76
abbrev Key_N : Nat := 78
abbrev Key_P : Nat := 80
abbrev Key_Q : Nat := 81
abbrev Key_R : Nat := 82
abbrev Key_S : Nat := 83
abbrev Key_U : Nat := 85

end Qt

/-! ## Python string primitives

Re-implemented structurally over character lists so that every
definition evaluates by kernel reduction (Lean's byte-position-based
`String` operations do not). -/

/-- The characters Python's default `str.strip()` removes. -/
def pySpace (c : Char) : Bool :=
  c = ' ' || c = '\t' || c = '\n' || c = '\r' || c = '\x0b' || c = '\x0c'

/-- Python `s.strip()`. -/
def pyStrip (s : String) : String :=
  String.mk (((s.toList.dropWhile pySpace).reverse.dropWhile pySpace).reverse)

/-- Python `s.startswith(p)` for one candidate. -/
def pyStartsWith (s p : String) : Bool :=
  p.toList.isPrefixOf s.toList

/-- Python `s[:n]`. -/
def pyTake (s : String) (n : Nat) : String :=
  String.mk (s.toList.take n)

/-- Python `s[n:]`. -/
def pyDrop (s : String) (n : Nat) : String :=
  String.mk (s.toList.drop n)

/-- Python falsiness of a string (`not s`). -/
def pyIsEmpty (s : String) : Bool :=
  s.toList.isEmpty

/-- Inner loop of `pySplitChar`. -/
def pySplitCharAux (sep : Char) : List Char → List Char → List String
  | [], acc => [String.mk acc.reverse]
  | c :: rest, acc =>
    if c = sep then String.mk acc.reverse :: pySplitCharAux sep rest []
    else pySplitCharAux sep rest (c :: acc)

/-- Python `s.split(sep)` for a one-character separator (as in
`size.split('x')`). -/
def pySplitChar (sep : Char) (s : String) : List String :=
  pySplitCharAux sep s.toList []

/-! ## Shared helpers translated from the Python sources -/

/-- `is_valid_url` from both sources: `if not text: return False;
return text.startswith(('http://', 'https://', 'ftp://', 'file://'))`. -/
def is_valid_url (text : String) : Bool :=
  if pyIsEmpty text then false
  else pyStartsWith text "http://" || pyStartsWith text "https://" ||
    pyStartsWith text "ftp://" || pyStartsWith text "file://"

/-- Truthiness of `clipboard.wait_for_text()` style optional strings:
Python treats `None` and `''` as falsy. -/
def optTruthy : Option String → Bool
  | none => false
  | some s => !pyIsEmpty s

/-- `is_valid_url` applied to a possibly-`None` value (Python's
`if not text` catches `None`). -/
def is_valid_url_opt : Option String → Bool
  | none => false
  | some s => is_valid_url s

/-- `os.path.expanduser` restricted to the forms the sources use. -/
def expanduser (home s : String) : String :=
  if s = "~" then home
  else if pyStartsWith s "~/" then home ++ pyDrop s 1
  else s

/-- No two adjacent `_` characters. -/
def noAdjUnderscores : List Char → Bool
  | '_' :: '_' :: _ => false
  | _ :: rest => noAdjUnderscores rest
  | [] => true

/-- Digit-run validity for Python `int()`: non-empty, starts and ends
with a digit, only digits and single `_` separators between digits. -/
def pyDigitsValid (l : List Char) : Bool :=
  match l with
  | [] => false
  | c :: _ =>
    c.isDigit && (l.getLast?.getD '_').isDigit &&
      l.all (fun d => d.isDigit || d = '_') && noAdjUnderscores l

/-- Value of a valid digit run, ignoring `_` separators. -/
def pyDigitsVal (l : List Char) : Nat :=
  (l.filter (· ≠ '_')).foldl (fun acc c => 10 * acc + (c.toNat - 48)) 0

/-- Python `int(s)` on a decimal string: strips surrounding whitespace,
allows one optional sign, then a digit run with optional single `_`
separators; anything else raises `ValueError` (`none` here). -/
def parsePyInt (s : String) : Option Int :=
  let t := pyStrip s
  if pyIsEmpty t then none
  else
    let (sign, digits) :=
      if pyStartsWith t "-" then ((-1 : Int), pyDrop t 1)
      else if pyStartsWith t "+" then ((1 : Int), pyDrop t 1)
      else ((1 : Int), t)
    if pyDigitsValid digits.toList then some (sign * pyDigitsVal digits.toList)
    else none

/-- `w, h = map(int, size.split('x'))`: succeeds exactly when the split
has two fields and both parse; every failure raises `ValueError`. -/
def parseSize (s : String) : Option (Int × Int) :=
  match (pySplitChar 'x' s).map parsePyInt with
  | [some w, some h] => some (w, h)
  | _ => none

/-! ## Handler result model

Key handlers are embedded as pure functions from the key event, the
mutable `find_text` slot and an environment of external inputs to a
`HandlerResult`: the Python return value (`some true` / `some false` /
`none` for a bare `return`), the ordered list of side effects, the new
`find_text` slot, and (instrumentation) which dispatch case matched. -/

/-- Identifier of an asynchronous completion callback registered by a
handler branch. -/
inductive CallbackId where
  | pdfTitle | htmlTitle | pngTitle | copyInnerText
deriving DecidableEq, Repr

/-- Abstract identity of each dispatch-table case, shared by both
shells. -/
inductive ActionId where
  | help | quit | reload | devtools | printPage | savePdf | saveHtml
  | saveShot | copyText | loadTmux | loadClip | promptUrl | bookmarks
  | back | forward | scrollDown | scrollUp | pageDown | pageUp
  | copyUrl | zoomIn | zoomOut | zoomReset | findStart | findNext | findPrev
deriving DecidableEq, Repr

/-- Side effects performed by the handlers, in program order. -/
inductive Effect where
  | log (msg : String)
  | logZoomLevel                 -- print of the float-formatted zoom level
  | showHelp
  | gtkMainQuit
  | appQuit
  | reload
  | inspectorShow                -- GTK web.get_inspector().show()
  | triggerInspectElement        -- Qt page.triggerAction(InspectElement)
  | runJS (code : String)
  | runJSCb (code : String) (cb : CallbackId)
  | tmuxShowBuffer
  | tmuxSetBuffer (text : String)
  | clipboardSet (text : String)
  | clipboardWaitForText         -- GTK clipboard.wait_for_text()
  | clipboardReadText            -- Qt QApplication.clipboard().text()
  | dmenu (args : List String) (input : String)
  | loadUri (u : String)         -- web.load_uri / web.load(QUrl(...))
  | goBack
  | goForward
  | zoomIn                       -- set_zoom_level(get_zoom_level() + 0.1)
  | zoomOut                      -- set_zoom_level(get_zoom_level() - 0.1)
  | zoomReset                    -- set_zoom_level(1.0)
  | findSearch (term : String) (caseSensitive : Bool) (maxCount : Nat)
  | findSearchNext               -- GTK find.search_next()
  | findSearchPrevious           -- GTK find.search_previous()
  | qtFindText (term : String) (backward caseSensitive : Bool)
  | printToPdf (dest : String)
deriving DecidableEq, Repr

/-- Result of one `on_key` invocation. -/
structure HandlerResult where
  ret : Option Bool
  effects : List Effect
  findText : String
  matched : Option ActionId
deriving DecidableEq, Repr

/-- External inputs consulted by `browser.py`'s `on_key`. -/
structure GtkEnv where
  debug : Bool
  tmuxBuffer : String            -- stdout of `tmux show-buffer`
  clipboard : Option String      -- clipboard.wait_for_text() (may be None)
  dmenuUrl : String              -- stdout of the dmenu URL prompt
  dmenuBookmark : String
  dmenuFind : String
  bookmarksEnv : Option String   -- BOOKMARKS_FILE
  home : String
  bookmarksFile : Option String  -- file content; none = FileNotFoundError
  pageUri : String               -- web.get_uri()
deriving DecidableEq, Repr

/-- `os.getenv('BOOKMARKS_FILE') or os.path.expanduser('~/data/links.txt')`. -/
def GtkEnv.linksPath (env : GtkEnv) : String :=
  match env.bookmarksEnv with
  | some s => if pyIsEmpty s then env.home ++ "/data/links.txt" else s
  | none => env.home ++ "/data/links.txt"

/-- Modifier tests as `browser.py` writes them: a non-zero bitwise AND. -/
def gtkCtrl (st : Nat) : Bool := (st &&& Gdk.CONTROL_MASK) != 0
def gtkShift (st : Nat) : Bool := (st &&& Gdk.SHIFT_MASK) != 0
def gtkAlt (st : Nat) : Bool := (st &&& Gdk.MOD1_MASK) != 0
def gtkCtrlShift (st : Nat) : Bool :=
  (st &&& (Gdk.CONTROL_MASK ||| Gdk.SHIFT_MASK)) != 0

/-- `if debug: print(f'key pressed: keyval={e.keyval}, state={e.state}')`. -/
def gtkDbg (env : GtkEnv) (kv st : Nat) : List Effect :=
  if env.debug then
    [.log ("key pressed: keyval=" ++ toString kv ++ ", state=" ++ toString st)]
  else []

/-- Body of the Ctrl+B branch of `browser.py`'s `on_key`: on
`FileNotFoundError` log and `return` (Python `None`); otherwise run
dmenu over the file content and navigate to a non-empty selection. -/
def gtkBookmarksBody (env : GtkEnv) : Option Bool × List Effect :=
  match env.bookmarksFile with
  | none => (none, [.log ("Links file not found: " ++ env.linksPath)])
  | some links =>
    let sel := pyStrip env.dmenuBookmark
    (some true,
      [.dmenu ["dmenu", "-i", "-l", "20", "-p", "Open link:"] links] ++
        (if !(pyIsEmpty sel) then [.log ("Opening: " ++ sel), .loadUri sel] else []))

/-- Body of the Ctrl+F branch of `browser.py`'s `on_key`: prompt via
dmenu (pre-filled with the slot); on a non-empty stripped result store
it and start a case-insensitive search capped at 9999 matches. -/
def gtkFindBody (env : GtkEnv) (ft : String) : List Effect × String :=
  let s := pyStrip env.dmenuFind
  if !(pyIsEmpty s) then
    ([.dmenu ["dmenu", "-p", "Find"] ft, .findSearch s false 9999,
      .log ("Searching: " ++ s)], s)
  else
    ([.dmenu ["dmenu", "-p", "Find"] ft], ft)

open Gdk in
/-- Direct translation of `on_key` in `browser.py` (lines 181-336):
the `if/elif` chain in source order. -/
def gtkOnKey (env : GtkEnv) (ft : String) (kv st : Nat) : HandlerResult :=
  let dbg := gtkDbg env kv st
  if kv == KEY_F1 then
    ⟨some true, dbg ++ [.showHelp], ft, some .help⟩
  else if kv == KEY_q && gtkCtrl st then
    ⟨some true, dbg ++ [.log "Quitting...", .gtkMainQuit], ft, some .quit⟩
  else if kv == KEY_F5 || (kv == KEY_r && gtkCtrl st) then
    ⟨some true, dbg ++ [.log "Reloading...", .reload], ft, some .reload⟩
  else if kv == KEY_F12 then
    ⟨some true, dbg ++ [.log "Opening inspector...", .inspectorShow], ft, some .devtools⟩
  else if kv == KEY_p && gtkCtrl st && !gtkShift st then
    ⟨some true, dbg ++ [.log "Printing...", .runJS "window.print()"], ft, some .printPage⟩
  else if kv == KEY_P && gtkCtrlShift st then
    ⟨some true, dbg ++ [.log "Saving PDF...", .runJSCb "document.title" .pdfTitle], ft, some .savePdf⟩
  else if kv == KEY_s && gtkCtrl st && !gtkShift st then
    ⟨some true, dbg ++ [.log "Saving HTML...", .runJSCb "document.title" .htmlTitle], ft, some .saveHtml⟩
  else if kv == KEY_S && gtkCtrlShift st then
    ⟨some true, dbg ++ [.log "Saving screenshot...", .runJSCb "document.title" .pngTitle], ft, some .saveShot⟩
  else if kv == KEY_C && gtkCtrlShift st then
    ⟨some true,
      dbg ++ [.log "Copying page text to tmux and clipboard...",
        .runJSCb "document.body.innerText" .copyInnerText], ft, some .copyText⟩
  else if kv == KEY_g && gtkCtrl st && !gtkShift st then
    let t := pyStrip env.tmuxBuffer
    ⟨some true,
      dbg ++ [.tmuxShowBuffer] ++
        (if is_valid_url t then
          [.log ("Loading from tmux buffer: " ++ t), .loadUri t]
        else
          [.log ("Tmux buffer is not a valid URL: " ++
            (if !(pyIsEmpty t) then pyTake t 50 else "(empty)") ++ "...")]),
      ft, some .loadTmux⟩
  else if kv == KEY_G && gtkCtrlShift st then
    ⟨some true,
      dbg ++ [.clipboardWaitForText] ++
        (if is_valid_url_opt env.clipboard then
          [.log ("Loading from clipboard: " ++ env.clipboard.getD ""),
            .loadUri (env.clipboard.getD "")]
        else
          [.log ("Clipboard is not a valid URL: " ++
            (match env.clipboard with
              | some t => if !(pyIsEmpty t) then pyTake t 50 else "(empty)"
              | none => "(empty)") ++ "...")]),
      ft, some .loadClip⟩
  else if kv == KEY_l && gtkCtrl st && !gtkShift st then
    let n := pyStrip env.dmenuUrl
    ⟨some true,
      dbg ++ [.log "Opening dmenu for URL...", .dmenu ["dmenu", "-p", "URL"] env.pageUri] ++
        (if !(pyIsEmpty n) then [.log ("Navigating to: " ++ n), .loadUri n] else []),
      ft, some .promptUrl⟩
  else if kv == KEY_b && gtkCtrl st then
    ⟨(gtkBookmarksBody env).1, dbg ++ (gtkBookmarksBody env).2, ft, some .bookmarks⟩
  else if kv == KEY_Left && gtkAlt st then
    ⟨some true, dbg ++ [.log "Going back...", .goBack], ft, some .back⟩
  else if kv == KEY_Right && gtkAlt st then
    ⟨some true, dbg ++ [.log "Going forward...", .goForward], ft, some .forward⟩
  else if kv == KEY_h && gtkAlt st then
    ⟨some true, dbg ++ [.log "Going back...", .goBack], ft, some .back⟩
  else if kv == KEY_l && gtkAlt st then
    ⟨some true, dbg ++ [.log "Going forward...", .goForward], ft, some .forward⟩
  else if kv == KEY_j && gtkAlt st then
    ⟨some true, dbg ++ [.runJS "window.scrollBy(0, 100)"], ft, some .scrollDown⟩
  else if kv == KEY_k && gtkAlt st then
    ⟨some true, dbg ++ [.runJS "window.scrollBy(0, -100)"], ft, some .scrollUp⟩
  else if kv == KEY_u && gtkAlt st then
    ⟨some true, dbg ++ [.runJS "window.scrollBy(0, window.innerHeight)"], ft, some .pageDown⟩
  else if kv == KEY_i && gtkAlt st then
    ⟨some true, dbg ++ [.runJS "window.scrollBy(0, -window.innerHeight)"], ft, some .pageUp⟩
  else if kv == KEY_comma && gtkAlt st then
    ⟨some true, dbg ++ [.log "Going back...", .goBack], ft, some .back⟩
  else if kv == KEY_period && gtkAlt st then
    ⟨some true, dbg ++ [.log "Going forward...", .goForward], ft, some .forward⟩
  else if kv == KEY_U && gtkCtrlShift st then
    ⟨some true,
      dbg ++ [.tmuxSetBuffer env.pageUri, .clipboardSet env.pageUri,
        .log ("Copied URL to tmux and clipboard: " ++ env.pageUri)],
      ft, some .copyUrl⟩
  else if (kv == KEY_plus || kv == KEY_equal) && gtkCtrl st then
    ⟨some true, dbg ++ [.zoomIn, .logZoomLevel], ft, some .zoomIn⟩
  else if kv == KEY_minus && gtkCtrl st then
    ⟨some true, dbg ++ [.zoomOut, .logZoomLevel], ft, some .zoomOut⟩
  else if kv == KEY_0 && gtkCtrl st then
    ⟨some true, dbg ++ [.zoomReset, .log "Zoom: 1.0"], ft, some .zoomReset⟩
  else if kv == KEY_f && gtkCtrl st then
    ⟨some true, dbg ++ (gtkFindBody env ft).1, (gtkFindBody env ft).2, some .findStart⟩
  else if kv == KEY_n && gtkCtrl st && !gtkShift st then
    ⟨some true, dbg ++ [.findSearchNext, .log "Find next"], ft, some .findNext⟩
  else if kv == KEY_N && gtkCtrl st then
    ⟨some true, dbg ++ [.findSearchPrevious, .log "Find previous"], ft, some .findPrev⟩
  else
    ⟨some false, dbg, ft, none⟩

/-- The same chain, as an explicit ordered list of
(predicate, action) pairs. -/
def gtkCases : List ((Nat → Nat → Bool) × ActionId) :=
  [ (fun kv _ => kv == Gdk.KEY_F1, .help),
    (fun kv st => kv == Gdk.KEY_q && gtkCtrl st, .quit),
    (fun kv st => kv == Gdk.KEY_F5 || (kv == Gdk.KEY_r && gtkCtrl st), .reload),
    (fun kv _ => kv == Gdk.KEY_F12, .devtools),
    (fun kv st => kv == Gdk.KEY_p && gtkCtrl st && !gtkShift st, .printPage),
    (fun kv st => kv == Gdk.KEY_P && gtkCtrlShift st, .savePdf),
    (fun kv st => kv == Gdk.KEY_s && gtkCtrl st && !gtkShift st, .saveHtml),
    (fun kv st => kv == Gdk.KEY_S && gtkCtrlShift st, .saveShot),
    (fun kv st => kv == Gdk.KEY_C && gtkCtrlShift st, .copyText),
    (fun kv st => kv == Gdk.KEY_g && gtkCtrl st && !gtkShift st, .loadTmux),
    (fun kv st => kv == Gdk.KEY_G && gtkCtrlShift st, .loadClip),
    (fun kv st => kv == Gdk.KEY_l && gtkCtrl st && !gtkShift st, .promptUrl),
    (fun kv st => kv == Gdk.KEY_b && gtkCtrl st, .bookmarks),
    (fun kv st => kv == Gdk.KEY_Left && gtkAlt st, .back),
    (fun kv st => kv == Gdk.KEY_Right && gtkAlt st, .forward),
    (fun kv st => kv == Gdk.KEY_h && gtkAlt st, .back),
    (fun kv st => kv == Gdk.KEY_l && gtkAlt st, .forward),
    (fun kv st => kv == Gdk.KEY_j && gtkAlt st, .scrollDown),
    (fun kv st => kv == Gdk.KEY_k && gtkAlt st, .scrollUp),
    (fun kv st => kv == Gdk.KEY_u && gtkAlt st, .pageDown),
    (fun kv st => kv == Gdk.KEY_i && gtkAlt st, .pageUp),
    (fun kv st => kv == Gdk.KEY_comma && gtkAlt st, .back),
    (fun kv st => kv == Gdk.KEY_period && gtkAlt st, .forward),
    (fun kv st => kv == Gdk.KEY_U && gtkCtrlShift st, .copyUrl),
    (fun kv st => (kv == Gdk.KEY_plus || kv == Gdk.KEY_equal) && gtkCtrl st, .zoomIn),
    (fun kv st => kv == Gdk.KEY_minus && gtkCtrl st, .zoomOut),
    (fun kv st => kv == Gdk.KEY_0 && gtkCtrl st, .zoomReset),
    (fun kv st => kv == Gdk.KEY_f && gtkCtrl st, .findStart),
    (fun kv st => kv == Gdk.KEY_n && gtkCtrl st && !gtkShift st, .findNext),
    (fun kv st => kv == Gdk.KEY_N && gtkCtrl st, .findPrev) ]

/-- First matching case of an ordered dispatch table. -/
def firstMatch (kv st : Nat) : List ((Nat → Nat → Bool) × ActionId) → Option ActionId
  | [] => none
  | c :: rest => if c.1 kv st then some c.2 else firstMatch kv st rest

/-- The GTK table's selected action. -/
def gtkFirstMatch (kv st : Nat) : Option ActionId := firstMatch kv st gtkCases

/-! ## `get_save_path` (identical in both sources)

`random.choices(string.ascii_lowercase + string.digits, k=7)` is
modelled by an oracle `r : Nat → Nat` supplying the seven draws; the
`os.makedirs` call is a side effect elided from the pure path
computation, and the download directory (already expanded by
`os.path.expanduser`) is passed in explicitly.  Python's Unicode
`str.isalnum` is modelled on the ASCII range the sources' titles use. -/

/-- `string.ascii_lowercase + string.digits`. -/
def saveAlphabet : String := "abcdefghijklmnopqrstuvwxyz0123456789"

/-- One draw of `random.choices(saveAlphabet, k=k)`. -/
def randChoices (r : Nat → Nat) (k : Nat) : String :=
  String.mk ((List.range k).map fun i =>
    saveAlphabet.toList.getD (r i % saveAlphabet.length) 'a')

/-- `c if c.isalnum() or c in '-_' else '_'`. -/
def sanitizeChar (c : Char) : Char :=
  if c.isAlphanum || c = '-' || c = '_' then c else '_'

/-- `''.join(c if c.isalnum() or c in '-_' else '_' for c in title)`. -/
def safeTitle (title : String) : String :=
  String.mk (title.toList.map sanitizeChar)

/-- `get_save_path(title, ext)` with the download directory and the
random oracle made explicit:
`f'{path}/{safe_title}__{rand_suffix}.{ext}'`. -/
def get_save_path (dlDir : String) (r : Nat → Nat) (title ext : String) : String :=
  dlDir ++ "/" ++ safeTitle title ++ "__" ++ randChoices r 7 ++ "." ++ ext

/-! ## The Qt shell's key handler (`qtbrowser.py` lines 237-446) -/

/-- External inputs consulted by `qtbrowser.py`'s `on_key`. -/
structure QtEnv where
  debug : Bool
  tmuxBuffer : String            -- stdout of `tmux show-buffer`
  clipboard : String             -- QApplication.clipboard().text()
  dmenuUrl : String
  dmenuBookmark : String
  dmenuFind : String
  bookmarksEnv : Option String   -- BOOKMARKS_FILE
  home : String
  bookmarksFile : Option String  -- file content; none = FileNotFoundError
  currentUrl : String            -- web.url().toString()
  title : String                 -- web.title()
  downloadDirEnv : Option String -- DBROWSER_DOWNLOAD_DIR
  rand : Nat → Nat               -- random.choices oracle

/-- `os.getenv('BOOKMARKS_FILE') or os.path.expanduser('~/data/links.txt')`. -/
def QtEnv.linksPath (env : QtEnv) : String :=
  match env.bookmarksEnv with
  | some s => if pyIsEmpty s then env.home ++ "/data/links.txt" else s
  | none => env.home ++ "/data/links.txt"

/-- `os.path.expanduser(os.getenv('DBROWSER_DOWNLOAD_DIR', '~/Downloads'))`. -/
def QtEnv.downloadDir (env : QtEnv) : String :=
  expanduser env.home (env.downloadDirEnv.getD "~/Downloads")

/-- Exact-equality modifier tests as `qtbrowser.py` writes them. -/
abbrev qtModC : Nat := Qt.ControlModifier
abbrev qtModCS : Nat := Qt.ControlModifier ||| Qt.ShiftModifier
abbrev qtModA : Nat := Qt.AltModifier

/-- `if debug: print(f'key pressed: key={key}, modifiers={modifiers}')`. -/
def qtDbg (env : QtEnv) (key mods : Nat) : List Effect :=
  if env.debug then
    [.log ("key pressed: key=" ++ toString key ++ ", modifiers=" ++ toString mods)]
  else []

/-- Body of the Ctrl+B branch of `qtbrowser.py`'s `on_key` (identical
logic to the GTK shell's). -/
def qtBookmarksBody (env : QtEnv) : Option Bool × List Effect :=
  match env.bookmarksFile with
  | none => (none, [.log ("Links file not found: " ++ env.linksPath)])
  | some links =>
    let sel := pyStrip env.dmenuBookmark
    (some true,
      [.dmenu ["dmenu", "-i", "-l", "20", "-p", "Open link:"] links] ++
        (if !(pyIsEmpty sel) then [.log ("Opening: " ++ sel), .loadUri sel] else []))

/-- Body of the Ctrl+F branch of `qtbrowser.py`'s `on_key`: on a
non-empty stripped dmenu result store it and start a case-sensitive
forward search. -/
def qtFindBody (env : QtEnv) (ft : String) : List Effect × String :=
  let s := pyStrip env.dmenuFind
  if !(pyIsEmpty s) then
    ([.dmenu ["dmenu", "-p", "Find"] ft, .qtFindText s false true,
      .log ("Searching: " ++ s)], s)
  else
    ([.dmenu ["dmenu", "-p", "Find"] ft], ft)

open Qt in
/-- Direct translation of `on_key` in `qtbrowser.py` (lines 237-435):
the `if/elif` chain in source order. -/
def qtOnKey (env : QtEnv) (ft : String) (key mods : Nat) : HandlerResult :=
  let dbg := qtDbg env key mods
  if key == Key_F1 then
    ⟨some true, dbg ++ [.showHelp], ft, some .help⟩
  else if key == Key_Q && mods == qtModC then
    ⟨some true, dbg ++ [.log "Quitting...", .appQuit], ft, some .quit⟩
  else if key == Key_F5 || (key == Key_R && mods == qtModC) then
    ⟨some true, dbg ++ [.log "Reloading...", .reload], ft, some .reload⟩
  else if key == Key_F12 then
    ⟨some true, dbg ++ [.log "Opening inspector...", .triggerInspectElement], ft, some .devtools⟩
  else if key == Key_P && mods == qtModC then
    ⟨some true, dbg ++ [.log "Printing...", .runJS "window.print()"], ft, some .printPage⟩
  else if key == Key_P && mods == qtModCS then
    let dest := get_save_path env.downloadDir env.rand
      (if pyIsEmpty env.title then "page" else env.title) "pdf"
    ⟨some true, dbg ++ [.log ("Saving PDF to " ++ dest ++ "..."), .printToPdf dest],
      ft, some .savePdf⟩
  else if key == Key_S && mods == qtModC then
    ⟨some true, dbg ++ [.runJSCb "document.title" .htmlTitle], ft, some .saveHtml⟩
  else if key == Key_S && mods == qtModCS then
    ⟨some true, dbg ++ [.runJSCb "document.title" .pngTitle], ft, some .saveShot⟩
  else if key == Key_C && mods == qtModCS then
    ⟨some true,
      dbg ++ [.log "Copying page text to tmux and clipboard...",
        .runJSCb "document.body.innerText" .copyInnerText], ft, some .copyText⟩
  else if key == Key_G && mods == qtModC then
    let t := pyStrip env.tmuxBuffer
    ⟨some true,
      dbg ++ [.tmuxShowBuffer] ++
        (if is_valid_url t then
          [.log ("Loading from tmux buffer: " ++ t), .loadUri t]
        else
          [.log ("Tmux buffer is not a valid URL: " ++
            (if !(pyIsEmpty t) then pyTake t 50 else "(empty)") ++ "...")]),
      ft, some .loadTmux⟩
  else if key == Key_G && mods == qtModCS then
    let t := env.clipboard
    ⟨some true,
      dbg ++ [.clipboardReadText] ++
        (if is_valid_url t then
          [.log ("Loading from clipboard: " ++ t), .loadUri t]
        else
          [.log ("Clipboard is not a valid URL: " ++
            (if !(pyIsEmpty t) then pyTake t 50 else "(empty)") ++ "...")]),
      ft, some .loadClip⟩
  else if key == Key_L && mods == qtModC then
    let n := pyStrip env.dmenuUrl
    ⟨some true,
      dbg ++ [.log "Opening dmenu for URL...", .dmenu ["dmenu", "-p", "URL"] env.currentUrl] ++
        (if !(pyIsEmpty n) then [.log ("Navigating to: " ++ n), .loadUri n] else []),
      ft, some .promptUrl⟩
  else if key == Key_B && mods == qtModC then
    ⟨(qtBookmarksBody env).1, dbg ++ (qtBookmarksBody env).2, ft, some .bookmarks⟩
  else if key == Key_Left && mods == qtModA then
    ⟨some true, dbg ++ [.log "Going back...", .goBack], ft, some .back⟩
  else if key == Key_Right && mods == qtModA then
    ⟨some true, dbg ++ [.log "Going forward...", .goForward], ft, some .forward⟩
  else if key == Key_H && mods == qtModA then
    ⟨some true, dbg ++ [.log "Going back...", .goBack], ft, some .back⟩
  else if key == Key_L && mods == qtModA then
    ⟨some true, dbg ++ [.log "Going forward...", .goForward], ft, some .forward⟩
  else if key == Key_J && mods == qtModA then
    ⟨some true, dbg ++ [.runJS "window.scrollBy(0, 100)"], ft, some .scrollDown⟩
  else if key == Key_K && mods == qtModA then
    ⟨some true, dbg ++ [.runJS "window.scrollBy(0, -100)"], ft, some .scrollUp⟩
  else if key == Key_U && mods == qtModA then
    ⟨some true, dbg ++ [.runJS "window.scrollBy(0, window.innerHeight)"], ft, some .pageDown⟩
  else if key == Key_I && mods == qtModA then
    ⟨some true, dbg ++ [.runJS "window.scrollBy(0, -window.innerHeight)"], ft, some .pageUp⟩
  else if key == Key_Comma && mods == qtModA then
    ⟨some true, dbg ++ [.log "Going back...", .goBack], ft, some .back⟩
  else if key == Key_Period && mods == qtModA then
    ⟨some true, dbg ++ [.log "Going forward...", .goForward], ft, some .forward⟩
  else if key == Key_U && mods == qtModCS then
    ⟨some true,
      dbg ++ [.tmuxSetBuffer env.currentUrl, .clipboardSet env.currentUrl,
        .log ("Copied URL to tmux and clipboard: " ++ env.currentUrl)],
      ft, some .copyUrl⟩
  else if (key == Key_Plus || key == Key_Equal) && mods == qtModC then
    ⟨some true, dbg ++ [.zoomIn, .logZoomLevel], ft, some .zoomIn⟩
  else if key == Key_Minus && mods == qtModC then
    ⟨some true, dbg ++ [.zoomOut, .logZoomLevel], ft, some .zoomOut⟩
  else if key == Key_0 && mods == qtModC then
    ⟨some true, dbg ++ [.zoomReset, .log "Zoom: 1.0"], ft, some .zoomReset⟩
  else if key == Key_F && mods == qtModC then
    ⟨some true, dbg ++ (qtFindBody env ft).1, (qtFindBody env ft).2, some .findStart⟩
  else if key == Key_N && mods == qtModC then
    ⟨some true,
      dbg ++ (if !(pyIsEmpty ft) then [.qtFindText ft false true, .log "Find next"] else []),
      ft, some .findNext⟩
  else if key == Key_N && mods == qtModCS then
    ⟨some true,
      dbg ++ (if !(pyIsEmpty ft) then [.qtFindText ft true true, .log "Find previous"] else []),
      ft, some .findPrev⟩
  else
    ⟨some false, dbg, ft, none⟩

/-- The Qt chain, as an explicit ordered list of
(predicate, action) pairs. -/
def qtCases : List ((Nat → Nat → Bool) × ActionId) :=
  [ (fun key _ => key == Qt.Key_F1, .help),
    (fun key mods => key == Qt.Key_Q && mods == qtModC, .quit),
    (fun key mods => key == Qt.Key_F5 || (key == Qt.Key_R && mods == qtModC), .reload),
    (fun key _ => key == Qt.Key_F12, .devtools),
    (fun key mods => key == Qt.Key_P && mods == qtModC, .printPage),
    (fun key mods => key == Qt.Key_P && mods == qtModCS, .savePdf),
    (fun key mods => key == Qt.Key_S && mods == qtModC, .saveHtml),
    (fun key mods => key == Qt.Key_S && mods == qtModCS, .saveShot),
    (fun key mods => key == Qt.Key_C && mods == qtModCS, .copyText),
    (fun key mods => key == Qt.Key_G && mods == qtModC, .loadTmux),
    (fun key mods => key == Qt.Key_G && mods == qtModCS, .loadClip),
    (fun key mods => key == Qt.Key_L && mods == qtModC, .promptUrl),
    (fun key mods => key == Qt.Key_B && mods == qtModC, .bookmarks),
    (fun key mods => key == Qt.Key_Left && mods == qtModA, .back),
    (fun key mods => key == Qt.Key_Right && mods == qtModA, .forward),
    (fun key mods => key == Qt.Key_H && mods == qtModA, .back),
    (fun key mods => key == Qt.Key_L && mods == qtModA, .forward),
    (fun key mods => key == Qt.Key_J && mods == qtModA, .scrollDown),
    (fun key mods => key == Qt.Key_K && mods == qtModA, .scrollUp),
    (fun key mods => key == Qt.Key_U && mods == qtModA, .pageDown),
    (fun key mods => key == Qt.Key_I && mods == qtModA, .pageUp),
    (fun key mods => key == Qt.Key_Comma && mods == qtModA, .back),
    (fun key mods => key == Qt.Key_Period && mods == qtModA, .forward),
    (fun key mods => key == Qt.Key_U && mods == qtModCS, .copyUrl),
    (fun key mods => (key == Qt.Key_Plus || key == Qt.Key_Equal) && mods == qtModC, .zoomIn),
    (fun key mods => key == Qt.Key_Minus && mods == qtModC, .zoomOut),
    (fun key mods => key == Qt.Key_0 && mods == qtModC, .zoomReset),
    (fun key mods => key == Qt.Key_F && mods == qtModC, .findStart),
    (fun key mods => key == Qt.Key_N && mods == qtModC, .findNext),
    (fun key mods => key == Qt.Key_N && mods == qtModCS, .findPrev) ]

/-- The Qt table's selected action. -/
def qtFirstMatch (key mods : Nat) : Option ActionId := firstMatch key mods qtCases

/-- `KeyFilter.eventFilter`: consumes the event iff `on_key` returned a
truthy value (Python `if on_key(event): return True` / `return False`). -/
def eventFilter (env : QtEnv) (ft : String) (isKeyPress : Bool) (key mods : Nat) : Bool :=
  if isKeyPress then
    match (qtOnKey env ft key mods).ret with
    | some true => true
    | _ => false
  else false

/-! ## Startup environment parsing (`browser.py` 71-118, `qtbrowser.py` 75-140) -/

/-- Snapshot of the environment variables read at startup
(`os.getenv` results: `none` = unset). -/
structure SysEnv where
  home : String
  debugV : Option String
  cacheDirV : Option String
  noCacheV : Option String
  noJsV : Option String
  lowMemV : Option String
  fastV : Option String
  noImagesV : Option String
  webglV : Option String
  mediaV : Option String
  drmV : Option String
  memoryLimitV : Option String
  sizeV : Option String
deriving DecidableEq, Repr

/-- `WebKit2.MemoryPressureSettings` values set in `browser.py` 90-94. -/
structure MemoryPressureConf where
  limitMB : Int
  killThreshold : Rat
  strictThreshold : Rat
  conservativeThreshold : Rat
deriving DecidableEq, Repr

/-- Engine-facing configuration computed by `browser.py` lines 85-118. -/
structure GtkStartupConf where
  usedCustomDataManager : Bool
  memoryPressure : Option MemoryPressureConf
  diskCacheDir : Option String
  cacheModelDocViewer : Bool
  sharedSecondaryProcess : Bool
  width : Int
  height : Int
deriving DecidableEq, Repr

/-- `browser.py` startup (context/window portion): the
`int(memory_limit)` `ValueError` is caught (`except ValueError: pass`),
while a malformed `DBROWSER_SIZE` raises an uncaught `ValueError`
(modelled as `Except.error`). -/
def gtkStartup (env : SysEnv) : Except String GtkStartupConf :=
  let mpressure : Option MemoryPressureConf :=
    if optTruthy env.memoryLimitV then
      match parsePyInt (env.memoryLimitV.getD "") with
      | some n => some ⟨n, 95/100, 85/100, 7/10⟩
      | none => none
    else none
  match parseSize (env.sizeV.getD "800x600") with
  | none => .error "ValueError"
  | some (w, h) =>
    .ok { usedCustomDataManager := optTruthy env.memoryLimitV
          memoryPressure := mpressure
          diskCacheDir :=
            if optTruthy env.memoryLimitV then none
            else if optTruthy env.cacheDirV then
              some (expanduser env.home (env.cacheDirV.getD ""))
            else none
          cacheModelDocViewer := optTruthy env.noCacheV || optTruthy env.lowMemV
          sharedSecondaryProcess := optTruthy env.lowMemV
          width := w, height := h }

/-- Engine-facing configuration computed by `qtbrowser.py` lines 84-140.
`memory_limit` is read at line 84 and does not occur anywhere below. -/
structure QtStartupConf where
  cachePath : Option String
  persistentStoragePath : Option String
  httpCacheDisabledAndCleared : Bool
  width : Int
  height : Int
  pluginsEnabled : Bool
  jsEnabled : Bool
  autoLoadIconsForPage : Bool
  allowRunningInsecureContent : Bool
  allowGeolocationOnInsecureOrigins : Bool
  localContentCanAccessRemoteUrls : Bool
  localContentCanAccessFileUrls : Bool
  autoLoadImages : Option Bool   -- none = attribute left at engine default
  webglEnabled : Option Bool
  userAgent : String
deriving DecidableEq, Repr

/-- `qtbrowser.py` startup: `DBROWSER_SIZE` is parsed at line 90 with no
exception handler, so a malformed value aborts with `ValueError`. -/
def qtStartup (env : SysEnv) : Except String QtStartupConf :=
  match parseSize (env.sizeV.getD "800x600") with
  | none => .error "ValueError"
  | some (w, h) =>
    let ni := optTruthy env.noImagesV
    let lm := optTruthy env.lowMemV
    .ok { cachePath :=
            if optTruthy env.cacheDirV then
              some (expanduser env.home (env.cacheDirV.getD ""))
            else none
          persistentStoragePath :=
            if optTruthy env.cacheDirV then
              some (expanduser env.home (env.cacheDirV.getD ""))
            else none
          httpCacheDisabledAndCleared := optTruthy env.noCacheV || lm
          width := w, height := h
          pluginsEnabled := true
          jsEnabled := !optTruthy env.noJsV
          autoLoadIconsForPage := true
          allowRunningInsecureContent := false
          allowGeolocationOnInsecureOrigins := false
          localContentCanAccessRemoteUrls := false
          localContentCanAccessFileUrls := false
          autoLoadImages := if lm then some (!ni) else if ni then some false else none
          webglEnabled := if optTruthy env.webglV then some true else none
          userAgent := "Mozilla/5.0" }

/-! ## The Qt shell's deferred initial navigation
(`qtbrowser.py` lines 98-102 and 201-218) -/

/-- `_pending_url[0]`, `_has_loaded[0]`, and whether `poll_timer` is
running. -/
structure QtLoadState where
  pending : Option String
  hasLoaded : Bool
  timerActive : Bool
deriving DecidableEq, Repr

/-- Startup state: `_has_loaded = [False]`, `_pending_url = [None]`,
`poll_timer.start(500)`. -/
def initLoadState : QtLoadState := ⟨none, false, true⟩

/-- Engine navigation requests issued by the poll routine. -/
inductive LoadEffect where
  | load (u : String)
deriving DecidableEq, Repr

/-- `try_load_url`, with `page.isLoading()`'s answer supplied as an
oracle: submit `web.load` while the slot is truthy and nothing has
loaded; once loading is observed, clear the slot, record the load and
stop the timer. -/
def tryLoadUrl (isLoading : Bool) (s : QtLoadState) : QtLoadState × List LoadEffect :=
  if optTruthy s.pending && !s.hasLoaded then
    if isLoading then
      (⟨none, true, false⟩, [.load (s.pending.getD "")])
    else
      (s, [.load (s.pending.getD "")])
  else (s, [])

/-- `BrowserView.showEvent`: stores the start URL into the pending slot
whenever the view is shown and the start URL is truthy. -/
def showEventStep (startUrl : String) (s : QtLoadState) : QtLoadState :=
  if !(pyIsEmpty startUrl) then { s with pending := some startUrl } else s

/-- Events that touch the pending-URL state: the view being shown, or a
poll-timer tick (which only fires while the timer runs). -/
inductive LoadEvent where
  | shown
  | tick (isLoading : Bool)
deriving DecidableEq, Repr

/-- One event of the deferred-navigation machinery. -/
def loadStep (startUrl : String) (s : QtLoadState) : LoadEvent → QtLoadState × List LoadEffect
  | .shown => (showEventStep startUrl s, [])
  | .tick b => if s.timerActive then tryLoadUrl b s else (s, [])

/-- Run a sequence of events, collecting the navigation requests. -/
def runTrace (startUrl : String) (s : QtLoadState) : List LoadEvent → QtLoadState × List LoadEffect
  | [] => (s, [])
  | e :: rest =>
    let r1 := loadStep startUrl s e
    let r2 := runTrace startUrl r1.1 rest
    (r2.1, r1.2 ++ r2.2)

/-! ## Physical key chords, for comparing the two shells' tables -/

/-- The physical keys occurring in the two keybinding tables. -/
inductive BaseKey where
  | f1 | f5 | f12 | left | right | comma | period | plus | equal | minus
  | digit0 | kb | kc | kf | kg | kh | ki | kj | kk | kl | kn | kp | kq
  | kr | ks | ku
deriving DecidableEq, Repr

/-- A key chord: a physical key plus held modifiers. -/
structure Chord where
  base : BaseKey
  ctrl : Bool
  shift : Bool
  alt : Bool
deriving DecidableEq, Repr

/-- Gdk keyval of the chord: letter keyvals are case-shifted by Shift. -/
def BaseKey.gdkKeyval (k : BaseKey) (shift : Bool) : Nat :=
  match k with
  | .f1 => Gdk.KEY_F1
  | .f5 => Gdk.KEY_F5
  | .f12 => Gdk.KEY_F12
  | .left => Gdk.KEY_Left
  | .right => Gdk.KEY_Right
  | .comma => Gdk.KEY_comma
  | .period => Gdk.KEY_period
  | .plus => Gdk.KEY_plus
  | .equal => Gdk.KEY_equal
  | .minus => Gdk.KEY_minus
  | .digit0 => Gdk.KEY_0
  | .kb => if shift then 66 else Gdk.KEY_b
  | .kc => if shift then Gdk.KEY_C else 99
  | .kf => if shift then 70 else Gdk.KEY_f
  | .kg => if shift then Gdk.KEY_G else Gdk.KEY_g
  | .kh => if shift then 72 else Gdk.KEY_h
  | .ki => if shift then 73 else Gdk.KEY_i
  | .kj => if shift then 74 else Gdk.KEY_j
  | .kk => if shift then 75 else Gdk.KEY_k
  | .kl => if shift then 76 else Gdk.KEY_l
  | .kn => if shift then Gdk.KEY_N else Gdk.KEY_n
  | .kp => if shift then Gdk.KEY_P else Gdk.KEY_p
  | .kq => if shift then 81 else Gdk.KEY_q
  | .kr => if shift then 82 else Gdk.KEY_r
  | .ks => if shift then Gdk.KEY_S else Gdk.KEY_s
  | .ku => if shift then Gdk.KEY_U else Gdk.KEY_u

/-- Qt key code of the chord's key (case-independent). -/
def BaseKey.qtKey (k : BaseKey) : Nat :=
  match k with
  | .f1 => Qt.Key_F1
  | .f5 => Qt.Key_F5
  | .f12 => Qt.Key_F12
  | .left => Qt.Key_Left
  | .right => Qt.Key_Right
  | .comma => Qt.Key_Comma
  | .period => Qt.Key_Period
  | .plus => Qt.Key_Plus
  | .equal => Qt.Key_Equal
  | .minus => Qt.Key_Minus
  | .digit0 => Qt.Key_0
  | .kb => Qt.Key_B
  | .kc => Qt.Key_C
  | .kf => Qt.Key_F
  | .kg => Qt.Key_G
  | .kh => Qt.Key_H
  | .ki => Qt.Key_I
  | .kj => Qt.Key_J
  | .kk => Qt.Key_K
  | .kl => Qt.Key_L
  | .kn => Qt.Key_N
  | .kp => Qt.Key_P
  | .kq => Qt.Key_Q
  | .kr => Qt.Key_R
  | .ks => Qt.Key_S
  | .ku => Qt.Key_U

/-- Gdk modifier state of a chord. -/
def Chord.gdkState (c : Chord) : Nat :=
  (if c.shift then Gdk.SHIFT_MASK else 0) +
    (if c.ctrl then Gdk.CONTROL_MASK else 0) +
    (if c.alt then Gdk.MOD1_MASK else 0)

/-- Qt modifier bitmask of a chord. -/
def Chord.qtMods (c : Chord) : Nat :=
  (if c.shift then Qt.ShiftModifier else 0) +
    (if c.ctrl then Qt.ControlModifier else 0) +
    (if c.alt then Qt.AltModifier else 0)

/-- Action the GTK table selects for a chord. -/
def Chord.gtkAction (c : Chord) : Option ActionId :=
  gtkFirstMatch (c.base.gdkKeyval c.shift) c.gdkState

/-- Action the Qt table selects for a chord. -/
def Chord.qtAction (c : Chord) : Option ActionId :=
  qtFirstMatch c.base.qtKey c.qtMods

/-- Chord with exactly Ctrl held. -/
def ctrlC (k : BaseKey) : Chord := ⟨k, true, false, false⟩

/-- Chord with exactly Ctrl+Shift held. -/
def ctrlShiftC (k : BaseKey) : Chord := ⟨k, true, true, false⟩

/-- Chord with exactly Alt held. -/
def altC (k : BaseKey) : Chord := ⟨k, false, false, true⟩

/-- Chord with no modifiers. -/
def plainC (k : BaseKey) : Chord := ⟨k, false, false, false⟩

/-- The documented keybinding table, each combination pressed with
exactly its listed modifiers. -/
def tableChords : List Chord :=
  [ plainC .f1, ctrlC .kq, plainC .f5, ctrlC .kr, plainC .f12,
    ctrlC .kp, ctrlShiftC .kp, ctrlC .ks, ctrlShiftC .ks, ctrlShiftC .kc,
    ctrlC .kg, ctrlShiftC .kg, ctrlC .kl, ctrlC .kb,
    altC .left, altC .right, altC .kh, altC .kl, altC .kj, altC .kk,
    altC .ku, altC .ki, altC .comma, altC .period,
    ctrlShiftC .ku, ctrlC .plus, ctrlC .equal, ctrlC .minus,
    ctrlC .digit0, ctrlC .kf, ctrlC .kn, ctrlShiftC .kn ]

/-! ## Characterizations of the handlers by selected case -/

/-- Python return value of `browser.py`'s `on_key` as a function of the
matched case: `True` for every matched case except Ctrl+B aborting on a
missing bookmarks file (bare `return`, i.e. `None`); `False` when no
case matched. -/
def gtkRetOfCase (env : GtkEnv) (o : Option ActionId) : Option Bool :=
  match o with
  | none => some false
  | some a => if a = .bookmarks then (gtkBookmarksBody env).1 else some true

/-- Same shape for `qtbrowser.py`'s `on_key`. -/
def qtRetOfCase (env : QtEnv) (o : Option ActionId) : Option Bool :=
  match o with
  | none => some false
  | some a => if a = .bookmarks then (qtBookmarksBody env).1 else some true

/-- New `find_text` slot as a function of the matched case: only the
Ctrl+F case can change it. -/
def gtkFtOfCase (env : GtkEnv) (ft : String) (o : Option ActionId) : String :=
  match o with
  | none => ft
  | some a => if a = .findStart then (gtkFindBody env ft).2 else ft

/-- Same shape for the Qt shell. -/
def qtFtOfCase (env : QtEnv) (ft : String) (o : Option ActionId) : String :=
  match o with
  | none => ft
  | some a => if a = .findStart then (qtFindBody env ft).2 else ft

/-- Out-of-range default used to index dispatch tables. -/
def dfltCase : (Nat → Nat → Bool) × ActionId := (fun _ _ => false, .help)

/-- `find_text = ['']` at startup in both shells. -/
def initFindText : String := ""

/-! ## Concrete environments used by witnesses and counterexamples -/

/-- A benign GTK environment. -/
def gtkEnv0 : GtkEnv :=
  { debug := false, tmuxBuffer := "", clipboard := none, dmenuUrl := ""
    dmenuBookmark := "", dmenuFind := "", bookmarksEnv := none
    home := "/home/user", bookmarksFile := some "https://a.example\n"
    pageUri := "https://p.example" }

/-- A GTK environment whose bookmarks file is missing. -/
def gtkEnvNoBook : GtkEnv := { gtkEnv0 with bookmarksFile := none }

/-- A benign Qt environment. -/
def qtEnv0 : QtEnv :=
  { debug := false, tmuxBuffer := "", clipboard := "", dmenuUrl := ""
    dmenuBookmark := "", dmenuFind := "", bookmarksEnv := none
    home := "/home/user", bookmarksFile := some "https://a.example\n"
    currentUrl := "https://p.example", title := "t", downloadDirEnv := none
    rand := fun _ => 0 }

/-- A Qt environment whose bookmarks file is missing. -/
def qtEnvNoBook : QtEnv := { qtEnv0 with bookmarksFile := none }

/-- GTK environment whose tmux buffer holds a padded URL. -/
def gtkEnvTmux : GtkEnv := { gtkEnv0 with tmuxBuffer := " https://ok.example " }

/-- Qt environment whose clipboard holds non-URL text. -/
def qtEnvClipBad : QtEnv := { qtEnv0 with clipboard := "nope" }

/-- GTK environment whose find prompt returns `Ab`. -/
def gtkEnvFind : GtkEnv := { gtkEnv0 with dmenuFind := "Ab" }

/-- Qt environment whose find prompt returns `Ab`. -/
def qtEnvFind : QtEnv := { qtEnv0 with dmenuFind := "Ab" }

/-- GTK environment whose URL prompt returns non-URL text. -/
def gtkEnvUrl : GtkEnv := { gtkEnv0 with dmenuUrl := "hello world " }

/-- A process environment with nothing set. -/
def sysEnv0 : SysEnv :=
  { home := "/home/user", debugV := none, cacheDirV := none, noCacheV := none
    noJsV := none, lowMemV := none, fastV := none, noImagesV := none
    webglV := none, mediaV := none, drmV := none, memoryLimitV := none
    sizeV := none }

/-! ## Helper lemmas: the `elif` chains agree with their tables -/

/-- The GTK handler's matched case is the table's first match. -/
theorem gtkOnKey_matched (env : GtkEnv) (ft : String) (kv st : Nat) :
    (gtkOnKey env ft kv st).matched = gtkFirstMatch kv st := by
  simp only [gtkOnKey, gtkFirstMatch, gtkCases, firstMatch,
    apply_ite (HandlerResult.matched)]

/-- The Qt handler's matched case is the table's first match. -/
theorem qtOnKey_matched (env : QtEnv) (ft : String) (key mods : Nat) :
    (qtOnKey env ft key mods).matched = qtFirstMatch key mods := by
  simp only [qtOnKey, qtFirstMatch, qtCases, firstMatch,
    apply_ite (HandlerResult.matched)]

set_option maxHeartbeats 1000000 in
/-- The GTK handler's Python return value, by selected case. -/
theorem gtkOnKey_ret (env : GtkEnv) (ft : String) (kv st : Nat) :
    (gtkOnKey env ft kv st).ret = gtkRetOfCase env (gtkFirstMatch kv st) := by
  simp only [gtkOnKey, gtkFirstMatch, gtkCases, firstMatch,
    apply_ite (HandlerResult.ret), apply_ite (gtkRetOfCase env)]
  simp only [gtkRetOfCase]
  simp

set_option maxHeartbeats 1000000 in
/-- The Qt handler's Python return value, by selected case. -/
theorem qtOnKey_ret (env : QtEnv) (ft : String) (key mods : Nat) :
    (qtOnKey env ft key mods).ret = qtRetOfCase env (qtFirstMatch key mods) := by
  simp only [qtOnKey, qtFirstMatch, qtCases, firstMatch,
    apply_ite (HandlerResult.ret), apply_ite (qtRetOfCase env)]
  simp only [qtRetOfCase]
  simp

set_option maxHeartbeats 1000000 in
/-- The GTK handler's new `find_text` slot, by selected case. -/
theorem gtkOnKey_findText (env : GtkEnv) (ft : String) (kv st : Nat) :
    (gtkOnKey env ft kv st).findText = gtkFtOfCase env ft (gtkFirstMatch kv st) := by
  simp only [gtkOnKey, gtkFirstMatch, gtkCases, firstMatch,
    apply_ite (HandlerResult.findText), apply_ite (gtkFtOfCase env ft)]
  simp only [gtkFtOfCase]
  simp

set_option maxHeartbeats 1000000 in
/-- The Qt handler's new `find_text` slot, by selected case. -/
theorem qtOnKey_findText (env : QtEnv) (ft : String) (key mods : Nat) :
    (qtOnKey env ft key mods).findText = qtFtOfCase env ft (qtFirstMatch key mods) := by
  simp only [qtOnKey, qtFirstMatch, qtCases, firstMatch,
    apply_ite (HandlerResult.findText), apply_ite (qtFtOfCase env ft)]
  simp only [qtFtOfCase]
  simp

/-- `firstMatch` selects exactly the first case whose predicate holds:
priority order, first match wins. -/
theorem firstMatch_eq_some_iff (kv st : Nat)
    (cs : List ((Nat → Nat → Bool) × ActionId)) (a : ActionId) :
    firstMatch kv st cs = some a ↔
      ∃ i, i < cs.length ∧ (cs.getD i dfltCase).1 kv st = true ∧
        (cs.getD i dfltCase).2 = a ∧
        ∀ j, j < i → (cs.getD j dfltCase).1 kv st = false := by
  induction cs with
  | nil => simp [firstMatch]
  | cons c rest ih =>
    by_cases h : c.1 kv st = true
    · simp only [firstMatch, h, if_true]
      constructor
      · intro he
        exact ⟨0, by simp, by simpa using h, by simpa using (Option.some.injEq _ _ ▸ he),
          fun j hj => absurd hj (Nat.not_lt_zero j)⟩
      · rintro ⟨i, hi, hp, ha, hj⟩
        match i with
        | 0 => simp only [List.getD_cons_zero] at ha; rw [ha]
        | k + 1 =>
          have := hj 0 (Nat.succ_pos k)
          simp only [List.getD_cons_zero] at this
          rw [h] at this
          exact absurd this (by simp)
    · have hf : c.1 kv st = false := by
        cases hb : c.1 kv st
        · rfl
        · exact absurd hb h
      simp only [firstMatch, hf, Bool.false_eq_true, if_false]
      rw [ih]
      constructor
      · rintro ⟨i, hi, hp, ha, hj⟩
        refine ⟨i + 1, by simpa using hi, by simpa using hp, by simpa using ha, ?_⟩
        intro j hjlt
        match j with
        | 0 => simpa using hf
        | k + 1 =>
          have := hj k (by omega)
          simpa using this
      · rintro ⟨i, hi, hp, ha, hj⟩
        match i with
        | 0 =>
          simp only [List.getD_cons_zero] at hp
          rw [hf] at hp
          exact absurd hp (by simp)
        | k + 1 =>
          refine ⟨k, by simpa using hi, by simpa using hp, by simpa using ha, ?_⟩
          intro j hjlt
          have := hj (j + 1) (by omega)
          simpa using this

/-! ## Claim C1 -/

/-- C1 counterexample: for the Ctrl+B case with a missing bookmarks
file, the case matches (and its action runs far enough to log), yet the
handler returns Python `None` rather than `True`, and the Qt event
filter therefore passes the event through as unhandled.  This refutes
"the handler returns True exactly when some case matched". -/
theorem c1_counterexample :
    (gtkOnKey gtkEnvNoBook "" Gdk.KEY_b Gdk.CONTROL_MASK).matched = some ActionId.bookmarks ∧
    (gtkOnKey gtkEnvNoBook "" Gdk.KEY_b Gdk.CONTROL_MASK).ret = none ∧
    (qtOnKey qtEnvNoBook "" Qt.Key_B qtModC).matched = some ActionId.bookmarks ∧
    (qtOnKey qtEnvNoBook "" Qt.Key_B qtModC).ret = none ∧
    eventFilter qtEnvNoBook "" true Qt.Key_B qtModC = false :=
  ⟨rfl, rfl, rfl, rfl, rfl⟩

/-- C1 (amended): in both shells the dispatch cases are tested in their
listed priority order (the handler's matched case is the table's first
whose predicate holds, so at most one case's action runs), the handler
returns True when a case matched and False when none did — except that
the Ctrl+B case returns None (falsy, hence also passed through as
unhandled) when the bookmarks file is missing — and the Qt event filter
consumes the event exactly when the handler returned True. -/
theorem c1_dispatch_amended :
    (∀ env ft kv st, (gtkOnKey env ft kv st).matched = gtkFirstMatch kv st) ∧
    (∀ kv st a, gtkFirstMatch kv st = some a ↔
      ∃ i, i < gtkCases.length ∧ (gtkCases.getD i dfltCase).1 kv st = true ∧
        (gtkCases.getD i dfltCase).2 = a ∧
        ∀ j, j < i → (gtkCases.getD j dfltCase).1 kv st = false) ∧
    (∀ env ft kv st, (gtkOnKey env ft kv st).ret = gtkRetOfCase env (gtkFirstMatch kv st)) ∧
    (∀ (env : GtkEnv) (o : Option ActionId),
      (gtkRetOfCase env o = some false ↔ o = none) ∧
      (gtkRetOfCase env o = none ↔ o = some .bookmarks ∧ env.bookmarksFile = none) ∧
      (gtkRetOfCase env o = some true ↔
        o ≠ none ∧ ¬(o = some .bookmarks ∧ env.bookmarksFile = none))) ∧
    (∀ env ft key mods, (qtOnKey env ft key mods).matched = qtFirstMatch key mods) ∧
    (∀ key mods a, qtFirstMatch key mods = some a ↔
      ∃ i, i < qtCases.length ∧ (qtCases.getD i dfltCase).1 key mods = true ∧
        (qtCases.getD i dfltCase).2 = a ∧
        ∀ j, j < i → (qtCases.getD j dfltCase).1 key mods = false) ∧
    (∀ env ft key mods, (qtOnKey env ft key mods).ret = qtRetOfCase env (qtFirstMatch key mods)) ∧
    (∀ (env : QtEnv) (o : Option ActionId),
      (qtRetOfCase env o = some false ↔ o = none) ∧
      (qtRetOfCase env o = none ↔ o = some .bookmarks ∧ env.bookmarksFile = none) ∧
      (qtRetOfCase env o = some true ↔
        o ≠ none ∧ ¬(o = some .bookmarks ∧ env.bookmarksFile = none))) ∧
    (∀ env ft key mods,
      (eventFilter env ft true key mods = true ↔ (qtOnKey env ft key mods).ret = some true) ∧
      eventFilter env ft false key mods = false) := by
  refine ⟨gtkOnKey_matched, fun kv st a => firstMatch_eq_some_iff kv st gtkCases a,
    gtkOnKey_ret, ?_, qtOnKey_matched,
    fun key mods a => firstMatch_eq_some_iff key mods qtCases a, qtOnKey_ret, ?_, ?_⟩
  · intro env o
    rcases o with _ | a
    · simp [gtkRetOfCase]
    · rcases h : env.bookmarksFile with _ | links <;>
        by_cases hb : a = ActionId.bookmarks <;>
        simp [gtkRetOfCase, gtkBookmarksBody, h, hb]
  · intro env o
    rcases o with _ | a
    · simp [qtRetOfCase]
    · rcases h : env.bookmarksFile with _ | links <;>
        by_cases hb : a = ActionId.bookmarks <;>
        simp [qtRetOfCase, qtBookmarksBody, h, hb]
  · intro env ft key mods
    constructor
    · unfold eventFilter
      rcases hr : (qtOnKey env ft key mods).ret with _ | b
      · simp
      · cases b <;> simp
    · rfl

/-- C1 witness: Ctrl+Q matches the quit case and the handler returns
True. -/
theorem c1_witness :
    (gtkOnKey gtkEnv0 "" Gdk.KEY_q Gdk.CONTROL_MASK).ret = some true := by
  rw [c1_dispatch_amended.2.2.1 gtkEnv0 "" Gdk.KEY_q Gdk.CONTROL_MASK]
  rfl

/-! ## Claim C2 -/

/-- C2 counterexample: a malformed `DBROWSER_SIZE` is *not* caught —
both shells abort startup with an uncaught `ValueError`, refuting
"the parse error is caught and ignored ... instead of aborting" for
the size variable. -/
theorem c2_counterexample :
    gtkStartup { sysEnv0 with sizeV := some "abc" } = .error "ValueError" ∧
    qtStartup { sysEnv0 with sizeV := some "abc" } = .error "ValueError" :=
  ⟨rfl, rfl⟩

/-- C2 (amended): a malformed `DBROWSER_MEMORY_LIMIT` is caught and
ignored (no memory-pressure settings, startup proceeds, and the Qt
shell ignores the variable entirely), but a malformed `DBROWSER_SIZE`
raises an uncaught `ValueError` that aborts startup in both shells. -/
theorem c2_env_parsing_amended :
    (∀ (env : SysEnv) s, env.memoryLimitV = some s → parsePyInt s = none →
      ∀ w h, parseSize (env.sizeV.getD "800x600") = some (w, h) →
        ∃ c, gtkStartup env = .ok c ∧ c.memoryPressure = none) ∧
    (∀ (env : SysEnv) v, qtStartup { env with memoryLimitV := v } = qtStartup env) ∧
    (∀ (env : SysEnv) s, env.sizeV = some s → parseSize s = none →
      gtkStartup env = .error "ValueError" ∧ qtStartup env = .error "ValueError") := by
  refine ⟨?_, ?_, ?_⟩
  · intro env s hml hp w h hsz
    simp only [gtkStartup, hsz]
    refine ⟨_, rfl, ?_⟩
    simp [hml, hp, optTruthy]
  · intro env v
    rfl
  · intro env s hs hp
    constructor <;> simp [gtkStartup, qtStartup, hs, hp]

/-- C2 witness: `DBROWSER_MEMORY_LIMIT=12MB` is ignored while startup
succeeds; `DBROWSER_SIZE=640` aborts. -/
theorem c2_witness :
    (∃ c, gtkStartup { sysEnv0 with memoryLimitV := some "12MB" } = .ok c ∧
      c.memoryPressure = none) ∧
    gtkStartup { sysEnv0 with sizeV := some "640" } = .error "ValueError" := by
  constructor
  · exact c2_env_parsing_amended.1 _ "12MB" rfl (by decide) 800 600 (by decide)
  · exact (c2_env_parsing_amended.2.2 _ "640" rfl (by decide)).1

/-! ## Claim C3 -/

/-- C3 counterexample: the Qt shell reads `DBROWSER_MEMORY_LIMIT` but
its entire engine configuration is unchanged by it — refuting "each
shell configures its embedded engine with a memory ceiling of N
megabytes" for the Qt shell. -/
theorem c3_counterexample :
    qtStartup { sysEnv0 with memoryLimitV := some "256" } = qtStartup sysEnv0 ∧
    (∃ c, qtStartup { sysEnv0 with memoryLimitV := some "256" } = .ok c) :=
  ⟨rfl, ⟨_, rfl⟩⟩

/-- C3 (amended): with `DBROWSER_MEMORY_LIMIT` a well-formed decimal
integer N, the GTK shell configures a memory ceiling of N megabytes
with kill/strict/conservative thresholds 0.95/0.85/0.7; the Qt shell
reads the variable but never applies it to its engine configuration. -/
theorem c3_memory_limit_amended :
    (∀ (env : SysEnv) s n, env.memoryLimitV = some s →
      optTruthy env.memoryLimitV = true → parsePyInt s = some n →
      ∀ w h, parseSize (env.sizeV.getD "800x600") = some (w, h) →
        ∃ c, gtkStartup env = .ok c ∧
          c.memoryPressure = some ⟨n, 95/100, 85/100, 7/10⟩ ∧
          c.usedCustomDataManager = true) ∧
    (∀ (env : SysEnv) v, qtStartup { env with memoryLimitV := v } = qtStartup env) := by
  constructor
  · intro env s n hml ht hp w h hsz
    rw [hml] at ht
    simp only [gtkStartup, hsz]
    refine ⟨_, rfl, ?_, ?_⟩
    · simp [hml, ht, hp]
    · simp [hml, ht]
  · intro env v
    rfl

/-- C3 witness: `DBROWSER_MEMORY_LIMIT=256` yields a 256 MB ceiling
with the three thresholds in the GTK shell. -/
theorem c3_witness :
    ∃ c, gtkStartup { sysEnv0 with memoryLimitV := some "256" } = .ok c ∧
      c.memoryPressure = some ⟨256, 95/100, 85/100, 7/10⟩ ∧
      c.usedCustomDataManager = true :=
  c3_memory_limit_amended.1 _ "256" 256 rfl (by decide) (by decide) 800 600 (by decide)

/-! ## Claim C4 -/

/-- C4: on Ctrl+G (tmux buffer) and Ctrl+Shift+G (clipboard), in both
shells, the fetched text is submitted to the engine's load operation
iff `is_valid_url` accepts it; otherwise a not-a-valid-URL message is
logged and no navigation occurs. -/
theorem c4_url_validation :
    (∀ (env : GtkEnv) ft st, gtkCtrl st = true → gtkShift st = false →
      ((Effect.loadUri (pyStrip env.tmuxBuffer) ∈ (gtkOnKey env ft Gdk.KEY_g st).effects) ↔
        is_valid_url (pyStrip env.tmuxBuffer) = true) ∧
      (is_valid_url (pyStrip env.tmuxBuffer) = false →
        (gtkOnKey env ft Gdk.KEY_g st).effects =
          gtkDbg env Gdk.KEY_g st ++ [.tmuxShowBuffer,
            .log ("Tmux buffer is not a valid URL: " ++
              (if !(pyIsEmpty (pyStrip env.tmuxBuffer)) then pyTake (pyStrip env.tmuxBuffer) 50
               else "(empty)") ++ "...")] ∧
        ∀ u, Effect.loadUri u ∉ (gtkOnKey env ft Gdk.KEY_g st).effects)) ∧
    (∀ (env : GtkEnv) ft st, gtkCtrlShift st = true →
      ((Effect.loadUri (env.clipboard.getD "") ∈ (gtkOnKey env ft Gdk.KEY_G st).effects) ↔
        is_valid_url_opt env.clipboard = true) ∧
      (is_valid_url_opt env.clipboard = false →
        (gtkOnKey env ft Gdk.KEY_G st).effects =
          gtkDbg env Gdk.KEY_G st ++ [.clipboardWaitForText,
            .log ("Clipboard is not a valid URL: " ++
              (match env.clipboard with
                | some t => if !(pyIsEmpty t) then pyTake t 50 else "(empty)"
                | none => "(empty)") ++ "...")] ∧
        ∀ u, Effect.loadUri u ∉ (gtkOnKey env ft Gdk.KEY_G st).effects)) ∧
    (∀ (env : QtEnv) ft,
      ((Effect.loadUri (pyStrip env.tmuxBuffer) ∈ (qtOnKey env ft Qt.Key_G qtModC).effects) ↔
        is_valid_url (pyStrip env.tmuxBuffer) = true) ∧
      (is_valid_url (pyStrip env.tmuxBuffer) = false →
        (qtOnKey env ft Qt.Key_G qtModC).effects =
          qtDbg env Qt.Key_G qtModC ++ [.tmuxShowBuffer,
            .log ("Tmux buffer is not a valid URL: " ++
              (if !(pyIsEmpty (pyStrip env.tmuxBuffer)) then pyTake (pyStrip env.tmuxBuffer) 50
               else "(empty)") ++ "...")] ∧
        ∀ u, Effect.loadUri u ∉ (qtOnKey env ft Qt.Key_G qtModC).effects)) ∧
    (∀ (env : QtEnv) ft,
      ((Effect.loadUri env.clipboard ∈ (qtOnKey env ft Qt.Key_G qtModCS).effects) ↔
        is_valid_url env.clipboard = true) ∧
      (is_valid_url env.clipboard = false →
        (qtOnKey env ft Qt.Key_G qtModCS).effects =
          qtDbg env Qt.Key_G qtModCS ++ [.clipboardReadText,
            .log ("Clipboard is not a valid URL: " ++
              (if !(pyIsEmpty env.clipboard) then pyTake env.clipboard 50
               else "(empty)") ++ "...")] ∧
        ∀ u, Effect.loadUri u ∉ (qtOnKey env ft Qt.Key_G qtModCS).effects)) := by
  refine ⟨?_, ?_, ?_, ?_⟩
  · intro env ft st hc hs
    have he : (gtkOnKey env ft Gdk.KEY_g st).effects =
        gtkDbg env Gdk.KEY_g st ++ [.tmuxShowBuffer] ++
          (if is_valid_url (pyStrip env.tmuxBuffer) then
            [.log ("Loading from tmux buffer: " ++ pyStrip env.tmuxBuffer),
              .loadUri (pyStrip env.tmuxBuffer)]
          else
            [.log ("Tmux buffer is not a valid URL: " ++
              (if !(pyIsEmpty (pyStrip env.tmuxBuffer)) then pyTake (pyStrip env.tmuxBuffer) 50
               else "(empty)") ++ "...")]) := by
      simp [gtkOnKey, hc, hs]
    refine ⟨?_, fun hv => ⟨?_, fun u => ?_⟩⟩
    · rw [he]
      cases hv : is_valid_url (pyStrip env.tmuxBuffer) <;>
        cases hd : env.debug <;> simp [gtkDbg, hd, hv]
    · rw [he, hv]
      simp
    · rw [he, hv]
      cases hd : env.debug <;> simp [gtkDbg, hd]
  · intro env ft st hcs
    have he : (gtkOnKey env ft Gdk.KEY_G st).effects =
        gtkDbg env Gdk.KEY_G st ++ [.clipboardWaitForText] ++
          (if is_valid_url_opt env.clipboard then
            [.log ("Loading from clipboard: " ++ env.clipboard.getD ""),
              .loadUri (env.clipboard.getD "")]
          else
            [.log ("Clipboard is not a valid URL: " ++
              (match env.clipboard with
                | some t => if !(pyIsEmpty t) then pyTake t 50 else "(empty)"
                | none => "(empty)") ++ "...")]) := by
      simp [gtkOnKey, hcs]
    refine ⟨?_, fun hv => ⟨?_, fun u => ?_⟩⟩
    · rw [he]
      cases hv : is_valid_url_opt env.clipboard <;>
        cases hd : env.debug <;> simp [gtkDbg, hd, hv]
    · rw [he, hv]
      simp
    · rw [he, hv]
      cases hd : env.debug <;> simp [gtkDbg, hd]
  · intro env ft
    have he : (qtOnKey env ft Qt.Key_G qtModC).effects =
        qtDbg env Qt.Key_G qtModC ++ [.tmuxShowBuffer] ++
          (if is_valid_url (pyStrip env.tmuxBuffer) then
            [.log ("Loading from tmux buffer: " ++ pyStrip env.tmuxBuffer),
              .loadUri (pyStrip env.tmuxBuffer)]
          else
            [.log ("Tmux buffer is not a valid URL: " ++
              (if !(pyIsEmpty (pyStrip env.tmuxBuffer)) then pyTake (pyStrip env.tmuxBuffer) 50
               else "(empty)") ++ "...")]) := by
      simp [qtOnKey]
    refine ⟨?_, fun hv => ⟨?_, fun u => ?_⟩⟩
    · rw [he]
      cases hv : is_valid_url (pyStrip env.tmuxBuffer) <;>
        cases hd : env.debug <;> simp [qtDbg, hd, hv]
    · rw [he, hv]
      simp
    · rw [he, hv]
      cases hd : env.debug <;> simp [qtDbg, hd]
  · intro env ft
    have he : (qtOnKey env ft Qt.Key_G qtModCS).effects =
        qtDbg env Qt.Key_G qtModCS ++ [.clipboardReadText] ++
          (if is_valid_url env.clipboard then
            [.log ("Loading from clipboard: " ++ env.clipboard),
              .loadUri env.clipboard]
          else
            [.log ("Clipboard is not a valid URL: " ++
              (if !(pyIsEmpty env.clipboard) then pyTake env.clipboard 50
               else "(empty)") ++ "...")]) := by
      have hne : ¬(qtModCS = qtModC) := by decide
      simp [qtOnKey, hne]
    refine ⟨?_, fun hv => ⟨?_, fun u => ?_⟩⟩
    · rw [he]
      cases hv : is_valid_url env.clipboard <;>
        cases hd : env.debug <;> simp [qtDbg, hd, hv]
    · rw [he, hv]
      simp
    · rw [he, hv]
      cases hd : env.debug <;> simp [qtDbg, hd]

/-- C4 witness: a stripped URL-shaped tmux buffer is loaded; a non-URL
clipboard string is rejected with no navigation. -/
theorem c4_witness :
    Effect.loadUri (pyStrip gtkEnvTmux.tmuxBuffer) ∈
      (gtkOnKey gtkEnvTmux "" Gdk.KEY_g 4).effects ∧
    Effect.loadUri "nope" ∉ (qtOnKey qtEnvClipBad "" Qt.Key_G qtModCS).effects := by
  constructor
  · exact ((c4_url_validation.1 gtkEnvTmux "" 4 (by decide) (by decide)).1).mpr (by decide)
  · exact ((c4_url_validation.2.2.2 qtEnvClipBad "").2 (by decide)).2 "nope"

/-! ## Claim C5 -/

/-- C5 counterexample: (i) with an extra Alt held, Ctrl+Alt+Q still
quits in the GTK shell (bitmask test) but is unhandled in the Qt shell
(exact-equality test); (ii) Ctrl+N with an empty stored term invokes
the engine's find-next in the GTK shell but does nothing in the Qt
shell; (iii) Ctrl+F searches case-insensitively in the GTK shell
(`caseSensitive = false`) and case-sensitively in the Qt shell.  So the
two dispatch/find behaviours are not identical. -/
theorem c5_counterexample :
    Chord.gtkAction ⟨.kq, true, false, true⟩ = some ActionId.quit ∧
    Chord.qtAction ⟨.kq, true, false, true⟩ = none ∧
    (gtkOnKey gtkEnv0 "" Gdk.KEY_n Gdk.CONTROL_MASK).effects =
      [.findSearchNext, .log "Find next"] ∧
    (qtOnKey qtEnv0 "" Qt.Key_N qtModC).effects = [] ∧
    (gtkOnKey gtkEnvFind "" Gdk.KEY_f Gdk.CONTROL_MASK).effects =
      [.dmenu ["dmenu", "-p", "Find"] "", .findSearch "Ab" false 9999,
        .log "Searching: Ab"] ∧
    (qtOnKey qtEnvFind "" Qt.Key_F qtModC).effects =
      [.dmenu ["dmenu", "-p", "Find"] "", .qtFindText "Ab" false true,
        .log "Searching: Ab"] := by
  refine ⟨by decide, by decide, by decide, by decide, by decide, by decide⟩

/-- C5 (amended): for every documented keybinding pressed with exactly
its listed modifiers the two shells select the same abstract action;
but with extra modifiers they can disagree, and the find actions
differ: the GTK shell's Ctrl+N/Ctrl+Shift+N always invoke the engine's
search_next/search_previous while the Qt shell's re-run `findText` only
when the stored term is non-empty, and Ctrl+F delegates to
`gtkFindBody` (case-insensitive search) vs `qtFindBody`
(case-sensitive). -/
theorem c5_table_equiv_amended :
    (∀ c ∈ tableChords, c.gtkAction = c.qtAction) ∧
    (∀ env ft st, gtkCtrl st = true → gtkShift st = false →
      (gtkOnKey env ft Gdk.KEY_n st).effects =
        gtkDbg env Gdk.KEY_n st ++ [.findSearchNext, .log "Find next"]) ∧
    (∀ env ft st, gtkCtrl st = true →
      (gtkOnKey env ft Gdk.KEY_N st).effects =
        gtkDbg env Gdk.KEY_N st ++ [.findSearchPrevious, .log "Find previous"]) ∧
    (∀ env ft, (qtOnKey env ft Qt.Key_N qtModC).effects =
      qtDbg env Qt.Key_N qtModC ++
        (if !(pyIsEmpty ft) then [.qtFindText ft false true, .log "Find next"] else [])) ∧
    (∀ env ft, (qtOnKey env ft Qt.Key_N qtModCS).effects =
      qtDbg env Qt.Key_N qtModCS ++
        (if !(pyIsEmpty ft) then [.qtFindText ft true true, .log "Find previous"] else [])) ∧
    (∀ env ft st, gtkCtrl st = true →
      (gtkOnKey env ft Gdk.KEY_f st).effects =
        gtkDbg env Gdk.KEY_f st ++ (gtkFindBody env ft).1) ∧
    (∀ env ft, (qtOnKey env ft Qt.Key_F qtModC).effects =
      qtDbg env Qt.Key_F qtModC ++ (qtFindBody env ft).1) := by
  refine ⟨by decide, ?_, ?_, ?_, ?_, ?_, ?_⟩
  · intro env ft st hc hs
    simp [gtkOnKey, hc, hs]
  · intro env ft st hc
    simp [gtkOnKey, hc]
  · intro env ft
    simp [qtOnKey]
  · intro env ft
    have hne : ¬(qtModCS = qtModC) := by decide
    simp [qtOnKey, hne]
  · intro env ft st hc
    simp [gtkOnKey, hc]
  · intro env ft
    simp [qtOnKey]

/-- C5 witness: the documented Ctrl+Q chord maps to the same action in
both shells, and a concrete Ctrl+N event takes the GTK shape. -/
theorem c5_witness :
    Chord.gtkAction (ctrlC .kq) = Chord.qtAction (ctrlC .kq) ∧
    (gtkOnKey gtkEnv0 "abc" Gdk.KEY_n 4).effects =
      gtkDbg gtkEnv0 Gdk.KEY_n 4 ++ [.findSearchNext, .log "Find next"] := by
  constructor
  · exact c5_table_equiv_amended.1 (ctrlC .kq) (by decide)
  · exact c5_table_equiv_amended.2.1 gtkEnv0 "abc" 4 (by decide) (by decide)

/-! ## Claim C6 -/

/-- C6 counterexample: in the GTK shell, find-next (Ctrl+N) behaves
identically for two different stored find terms (the slot is not read —
`find.search_next()` takes no term), whereas the Qt shell's find-next
does depend on the slot. -/
theorem c6_counterexample :
    (gtkOnKey gtkEnv0 "abc" Gdk.KEY_n Gdk.CONTROL_MASK).effects =
      (gtkOnKey gtkEnv0 "xyz" Gdk.KEY_n Gdk.CONTROL_MASK).effects ∧
    (gtkOnKey gtkEnv0 "abc" Gdk.KEY_n Gdk.CONTROL_MASK).ret =
      (gtkOnKey gtkEnv0 "xyz" Gdk.KEY_n Gdk.CONTROL_MASK).ret ∧
    (qtOnKey qtEnv0 "abc" Qt.Key_N qtModC).effects ≠
      (qtOnKey qtEnv0 "xyz" Qt.Key_N qtModC).effects :=
  ⟨by decide, by decide, by decide⟩

/-- C6 (amended): the current find term is a single slot that starts
empty, is replaced exactly when a non-empty (stripped) search string is
entered via Ctrl+F, and is never cleared; it is read by find-next
(Ctrl+N) and find-previous (Ctrl+Shift+N) in the Qt shell only — the
GTK shell's find-next/find-previous call the engine's
search_next/search_previous without consulting the slot. -/
theorem c6_find_slot_amended :
    initFindText = "" ∧
    (∀ (env : GtkEnv) ft kv st, (gtkOnKey env ft kv st).findText =
      if gtkFirstMatch kv st = some ActionId.findStart ∧
          pyIsEmpty (pyStrip env.dmenuFind) = false
      then pyStrip env.dmenuFind else ft) ∧
    (∀ (env : QtEnv) ft key mods, (qtOnKey env ft key mods).findText =
      if qtFirstMatch key mods = some ActionId.findStart ∧
          pyIsEmpty (pyStrip env.dmenuFind) = false
      then pyStrip env.dmenuFind else ft) ∧
    (∀ (env : GtkEnv) ft kv st, ft ≠ "" → (gtkOnKey env ft kv st).findText ≠ "") ∧
    (∀ (env : QtEnv) ft key mods, ft ≠ "" → (qtOnKey env ft key mods).findText ≠ "") ∧
    (∀ env ft, (qtOnKey env ft Qt.Key_N qtModC).effects =
      qtDbg env Qt.Key_N qtModC ++
        (if !(pyIsEmpty ft) then [.qtFindText ft false true, .log "Find next"] else [])) ∧
    (∀ env ft, (qtOnKey env ft Qt.Key_N qtModCS).effects =
      qtDbg env Qt.Key_N qtModCS ++
        (if !(pyIsEmpty ft) then [.qtFindText ft true true, .log "Find previous"] else [])) ∧
    (∀ env ft ft' st, gtkCtrl st = true → gtkShift st = false →
      (gtkOnKey env ft Gdk.KEY_n st).effects = (gtkOnKey env ft' Gdk.KEY_n st).effects) ∧
    (∀ env ft ft' st, gtkCtrl st = true →
      (gtkOnKey env ft Gdk.KEY_N st).effects = (gtkOnKey env ft' Gdk.KEY_N st).effects) := by
  have hempty : ∀ s : String, pyIsEmpty s = false → s ≠ "" := by
    intro s hps hcon
    rw [hcon] at hps
    have : pyIsEmpty "" = true := by decide
    simp [this] at hps
  have hupd_gtk : ∀ (env : GtkEnv) ft kv st, (gtkOnKey env ft kv st).findText =
      if gtkFirstMatch kv st = some ActionId.findStart ∧
          pyIsEmpty (pyStrip env.dmenuFind) = false
      then pyStrip env.dmenuFind else ft := by
    intro env ft kv st
    rw [gtkOnKey_findText]
    rcases h : gtkFirstMatch kv st with _ | a
    · simp [gtkFtOfCase]
    · by_cases ha : a = ActionId.findStart
      · subst ha
        cases he : pyIsEmpty (pyStrip env.dmenuFind) <;>
          simp [gtkFtOfCase, gtkFindBody, he]
      · simp [gtkFtOfCase, ha]
  have hupd_qt : ∀ (env : QtEnv) ft key mods, (qtOnKey env ft key mods).findText =
      if qtFirstMatch key mods = some ActionId.findStart ∧
          pyIsEmpty (pyStrip env.dmenuFind) = false
      then pyStrip env.dmenuFind else ft := by
    intro env ft key mods
    rw [qtOnKey_findText]
    rcases h : qtFirstMatch key mods with _ | a
    · simp [qtFtOfCase]
    · by_cases ha : a = ActionId.findStart
      · subst ha
        cases he : pyIsEmpty (pyStrip env.dmenuFind) <;>
          simp [qtFtOfCase, qtFindBody, he]
      · simp [qtFtOfCase, ha]
  refine ⟨rfl, hupd_gtk, hupd_qt, ?_, ?_, ?_, ?_, ?_, ?_⟩
  · intro env ft kv st hft
    rw [hupd_gtk]
    split
    · next hcond => exact hempty _ hcond.2
    · exact hft
  · intro env ft key mods hft
    rw [hupd_qt]
    split
    · next hcond => exact hempty _ hcond.2
    · exact hft
  · intro env ft
    simp [qtOnKey]
  · intro env ft
    have hne : ¬(qtModCS = qtModC) := by decide
    simp [qtOnKey, hne]
  · intro env ft ft' st hc hs
    simp [gtkOnKey, hc, hs]
  · intro env ft ft' st hc
    simp [gtkOnKey, hc]

/-- C6 witness: a slot that is non-empty stays non-empty across any
event, applied at a concrete Ctrl+N event. -/
theorem c6_witness :
    (gtkOnKey gtkEnv0 "abc" Gdk.KEY_n 4).findText ≠ "" :=
  c6_find_slot_amended.2.2.2.1 gtkEnv0 "abc" Gdk.KEY_n 4 (by decide)

/-! ## Claim C7 -/

/-- One event preserves "once loaded, the poll timer is stopped". -/
theorem loadInv_step (u : String) (s : QtLoadState) (e : LoadEvent)
    (h : s.hasLoaded = true → s.timerActive = false) :
    (loadStep u s e).1.hasLoaded = true → (loadStep u s e).1.timerActive = false := by
  cases e with
  | shown =>
    simp only [loadStep, showEventStep]
    split <;> simpa using h
  | tick b =>
    by_cases ht : s.timerActive = true
    · simp only [loadStep, ht, if_true, tryLoadUrl]
      split
      · split <;> simp_all
      · simpa using h
    · have ht' : s.timerActive = false := by
        cases hb : s.timerActive
        · rfl
        · exact absurd hb ht
      simp only [loadStep, ht']
      simpa using h

/-- The invariant holds along every trace. -/
theorem loadInv_run (u : String) (evs : List LoadEvent) :
    ∀ s : QtLoadState, (s.hasLoaded = true → s.timerActive = false) →
      (runTrace u s evs).1.hasLoaded = true → (runTrace u s evs).1.timerActive = false := by
  induction evs with
  | nil => intro s h; simpa [runTrace] using h
  | cons e rest ih =>
    intro s h
    simp only [runTrace]
    exact ih _ (loadInv_step u s e h)

/-- Once loaded with the timer stopped, a trace issues no further
navigation and stays loaded with the timer stopped. -/
theorem runTrace_frozen (u : String) (evs : List LoadEvent) :
    ∀ s : QtLoadState, s.hasLoaded = true → s.timerActive = false →
      (runTrace u s evs).2 = [] ∧ (runTrace u s evs).1.hasLoaded = true ∧
        (runTrace u s evs).1.timerActive = false := by
  induction evs with
  | nil => intro s hl ht; simp [runTrace, hl, ht]
  | cons e rest ih =>
    intro s hl ht
    have hstep : (loadStep u s e).2 = [] ∧ (loadStep u s e).1.hasLoaded = true ∧
        (loadStep u s e).1.timerActive = false := by
      cases e with
      | shown =>
        simp only [loadStep, showEventStep]
        split <;> simp_all
      | tick b => simp [loadStep, ht, hl]
    obtain ⟨h1, h2, h3⟩ := hstep
    obtain ⟨r1, r2, r3⟩ := ih (loadStep u s e).1 h2 h3
    refine ⟨?_, r2, r3⟩
    simp only [runTrace]
    rw [h1, r1]
    rfl

/-- C7: the pending-initial-URL slot defers only the first navigation:
`try_load_url` submits a load exactly while the slot is truthy and no
load has been observed; once the engine reports loading in progress the
slot is cleared, the loaded flag is set and the poll timer is stopped;
`showEvent` (re)sets the slot from a truthy start URL; and after any
trace from startup that reaches the loaded state, no continuation of
the trace issues any navigation. -/
theorem c7_pending_url :
    (∀ (b : Bool) (s : QtLoadState),
      ((tryLoadUrl b s).2 = [] ∨
        (tryLoadUrl b s).2 = [.load (s.pending.getD "")]) ∧
      ((tryLoadUrl b s).2 ≠ [] ↔
        optTruthy s.pending = true ∧ s.hasLoaded = false)) ∧
    (∀ s : QtLoadState, optTruthy s.pending = true → s.hasLoaded = false →
      tryLoadUrl true s = (⟨none, true, false⟩, [.load (s.pending.getD "")])) ∧
    (∀ (u : String) (s : QtLoadState), u ≠ "" →
      showEventStep u s = { s with pending := some u }) ∧
    (∀ s : QtLoadState, showEventStep "" s = s) ∧
    initLoadState = ⟨none, false, true⟩ ∧
    (∀ (u : String) (evs evs' : List LoadEvent),
      (runTrace u initLoadState evs).1.hasLoaded = true →
      (runTrace u (runTrace u initLoadState evs).1 evs').2 = []) := by
  refine ⟨?_, ?_, ?_, ?_, rfl, ?_⟩
  · intro b s
    cases hp : optTruthy s.pending <;> cases hl : s.hasLoaded <;> cases b <;>
      simp [tryLoadUrl, hp, hl]
  · intro s hp hl
    simp [tryLoadUrl, hp, hl]
  · intro u s hu
    have : pyIsEmpty u = false := by
      cases hb : pyIsEmpty u
      · rfl
      · exfalso
        apply hu
        cases u with
        | mk l =>
          cases l with
          | nil => rfl
          | cons c cs => simp [pyIsEmpty] at hb
    simp [showEventStep, this]
  · intro s
    rfl
  · intro u evs evs' hloaded
    have hinv := loadInv_run u evs initLoadState (by simp [initLoadState])
    exact (runTrace_frozen u evs' _ hloaded (hinv hloaded)).1

/-- C7 witness: a concrete trace — show, successful tick — reaches the
loaded state, after which a further show and ticks issue no load. -/
theorem c7_witness :
    (runTrace "https://s.example"
      (runTrace "https://s.example" initLoadState [.shown, .tick true]).1
      [.shown, .tick false, .tick true]).2 = [] :=
  c7_pending_url.2.2.2.2.2 "https://s.example" [.shown, .tick true]
    [.shown, .tick false, .tick true] (by decide)

/-! ## Claim C8 -/

/-- C8: on Ctrl+B with the bookmarks file missing
(`FileNotFoundError`), both handlers log the missing path and return
(bare `return`, Python `None`), invoking no dmenu and performing no
navigation; the path defaults to `~/data/links.txt` when
`BOOKMARKS_FILE` is unset. -/
theorem c8_missing_bookmarks :
    (∀ (env : GtkEnv) ft st, gtkCtrl st = true → env.bookmarksFile = none →
      (gtkOnKey env ft Gdk.KEY_b st).ret = none ∧
      (gtkOnKey env ft Gdk.KEY_b st).effects =
        gtkDbg env Gdk.KEY_b st ++ [.log ("Links file not found: " ++ env.linksPath)] ∧
      (∀ args inp, Effect.dmenu args inp ∉ (gtkOnKey env ft Gdk.KEY_b st).effects) ∧
      (∀ u, Effect.loadUri u ∉ (gtkOnKey env ft Gdk.KEY_b st).effects)) ∧
    (∀ (env : QtEnv) ft, env.bookmarksFile = none →
      (qtOnKey env ft Qt.Key_B qtModC).ret = none ∧
      (qtOnKey env ft Qt.Key_B qtModC).effects =
        qtDbg env Qt.Key_B qtModC ++ [.log ("Links file not found: " ++ env.linksPath)] ∧
      (∀ args inp, Effect.dmenu args inp ∉ (qtOnKey env ft Qt.Key_B qtModC).effects) ∧
      (∀ u, Effect.loadUri u ∉ (qtOnKey env ft Qt.Key_B qtModC).effects)) ∧
    (∀ env : GtkEnv, env.bookmarksEnv = none →
      env.linksPath = env.home ++ "/data/links.txt") ∧
    (∀ env : QtEnv, env.bookmarksEnv = none →
      env.linksPath = env.home ++ "/data/links.txt") := by
  refine ⟨?_, ?_, ?_, ?_⟩
  · intro env ft st hc hb
    have he : (gtkOnKey env ft Gdk.KEY_b st).effects =
        gtkDbg env Gdk.KEY_b st ++ [.log ("Links file not found: " ++ env.linksPath)] := by
      simp [gtkOnKey, hc, gtkBookmarksBody, hb]
    refine ⟨by simp [gtkOnKey, hc, gtkBookmarksBody, hb], he, ?_, ?_⟩
    · intro args inp
      rw [he]
      cases hd : env.debug <;> simp [gtkDbg, hd]
    · intro u
      rw [he]
      cases hd : env.debug <;> simp [gtkDbg, hd]
  · intro env ft hb
    have he : (qtOnKey env ft Qt.Key_B qtModC).effects =
        qtDbg env Qt.Key_B qtModC ++ [.log ("Links file not found: " ++ env.linksPath)] := by
      simp [qtOnKey, qtBookmarksBody, hb]
    refine ⟨by simp [qtOnKey, qtBookmarksBody, hb], he, ?_, ?_⟩
    · intro args inp
      rw [he]
      cases hd : env.debug <;> simp [qtDbg, hd]
    · intro u
      rw [he]
      cases hd : env.debug <;> simp [qtDbg, hd]
  · intro env hb
    simp [GtkEnv.linksPath, hb]
  · intro env hb
    simp [QtEnv.linksPath, hb]

/-- C8 witness: a concrete Ctrl+B with the bookmarks file missing
returns None. -/
theorem c8_witness :
    (gtkOnKey gtkEnvNoBook "" Gdk.KEY_b 4).ret = none :=
  (c8_missing_bookmarks.1 gtkEnvNoBook "" 4 (by decide) rfl).1

/-! ## Claim C9 -/

/-- C9: on Ctrl+L, a non-empty stripped dmenu result is submitted to
the engine's load with no URL-shape validation (there is no
`is_valid_url` test on this path); an empty result is ignored. -/
theorem c9_prompt_load :
    (∀ (env : GtkEnv) ft st, gtkCtrl st = true → gtkShift st = false →
      (gtkOnKey env ft Gdk.KEY_l st).effects =
        gtkDbg env Gdk.KEY_l st ++
          [.log "Opening dmenu for URL...", .dmenu ["dmenu", "-p", "URL"] env.pageUri] ++
          (if !(pyIsEmpty (pyStrip env.dmenuUrl)) then
            [.log ("Navigating to: " ++ pyStrip env.dmenuUrl),
              .loadUri (pyStrip env.dmenuUrl)]
          else []) ∧
      (pyIsEmpty (pyStrip env.dmenuUrl) = false →
        Effect.loadUri (pyStrip env.dmenuUrl) ∈ (gtkOnKey env ft Gdk.KEY_l st).effects) ∧
      (pyIsEmpty (pyStrip env.dmenuUrl) = true →
        ∀ u, Effect.loadUri u ∉ (gtkOnKey env ft Gdk.KEY_l st).effects)) ∧
    (∀ (env : QtEnv) ft,
      (qtOnKey env ft Qt.Key_L qtModC).effects =
        qtDbg env Qt.Key_L qtModC ++
          [.log "Opening dmenu for URL...", .dmenu ["dmenu", "-p", "URL"] env.currentUrl] ++
          (if !(pyIsEmpty (pyStrip env.dmenuUrl)) then
            [.log ("Navigating to: " ++ pyStrip env.dmenuUrl),
              .loadUri (pyStrip env.dmenuUrl)]
          else []) ∧
      (pyIsEmpty (pyStrip env.dmenuUrl) = false →
        Effect.loadUri (pyStrip env.dmenuUrl) ∈ (qtOnKey env ft Qt.Key_L qtModC).effects) ∧
      (pyIsEmpty (pyStrip env.dmenuUrl) = true →
        ∀ u, Effect.loadUri u ∉ (qtOnKey env ft Qt.Key_L qtModC).effects)) := by
  constructor
  · intro env ft st hc hs
    have he : (gtkOnKey env ft Gdk.KEY_l st).effects =
        gtkDbg env Gdk.KEY_l st ++
          [.log "Opening dmenu for URL...", .dmenu ["dmenu", "-p", "URL"] env.pageUri] ++
          (if !(pyIsEmpty (pyStrip env.dmenuUrl)) then
            [.log ("Navigating to: " ++ pyStrip env.dmenuUrl),
              .loadUri (pyStrip env.dmenuUrl)]
          else []) := by
      simp [gtkOnKey, hc, hs]
    refine ⟨he, ?_, ?_⟩
    · intro hne
      rw [he]
      cases hd : env.debug <;> simp [gtkDbg, hd, hne]
    · intro hem u
      rw [he]
      cases hd : env.debug <;> simp [gtkDbg, hd, hem]
  · intro env ft
    have he : (qtOnKey env ft Qt.Key_L qtModC).effects =
        qtDbg env Qt.Key_L qtModC ++
          [.log "Opening dmenu for URL...", .dmenu ["dmenu", "-p", "URL"] env.currentUrl] ++
          (if !(pyIsEmpty (pyStrip env.dmenuUrl)) then
            [.log ("Navigating to: " ++ pyStrip env.dmenuUrl),
              .loadUri (pyStrip env.dmenuUrl)]
          else []) := by
      simp [qtOnKey]
    refine ⟨he, ?_, ?_⟩
    · intro hne
      rw [he]
      cases hd : env.debug <;> simp [qtDbg, hd, hne]
    · intro hem u
      rw [he]
      cases hd : env.debug <;> simp [qtDbg, hd, hem]

/-- C9 witness: a non-URL dmenu answer ("hello world") is loaded
verbatim — no validation on the Ctrl+L path. -/
theorem c9_witness :
    Effect.loadUri (pyStrip gtkEnvUrl.dmenuUrl) ∈
      (gtkOnKey gtkEnvUrl "" Gdk.KEY_l 4).effects ∧
    is_valid_url (pyStrip gtkEnvUrl.dmenuUrl) = false := by
  constructor
  · exact (c9_prompt_load.1 gtkEnvUrl "" 4 (by decide) (by decide)).2.1 (by decide)
  · decide

/-! ## Claim C10 -/

/-- C10: `get_save_path` produces
`<download-dir>/<sanitized>__<suffix>.<ext>` where the sanitizer keeps
only alphanumerics, `-` and `_` (replacing everything else by `_`) and
the suffix is exactly 7 characters from lowercase letters and digits;
hence no title character — in particular no path separator — can move
the file out of the download directory. -/
theorem c10_save_path_safe :
    ∀ (dl : String) (r : Nat → Nat) (title ext : String),
      get_save_path dl r title ext =
        dl ++ "/" ++ (safeTitle title ++ "__" ++ randChoices r 7 ++ "." ++ ext) ∧
      (safeTitle title).toList = title.toList.map sanitizeChar ∧
      (∀ c : Char, (c.isAlphanum = true ∨ c = '-' ∨ c = '_') → sanitizeChar c = c) ∧
      (∀ c : Char, ¬(c.isAlphanum = true ∨ c = '-' ∨ c = '_') → sanitizeChar c = '_') ∧
      (randChoices r 7).length = 7 ∧
      (∀ c ∈ (randChoices r 7).toList, c.isLower = true ∨ c.isDigit = true) ∧
      (∀ c ∈ (safeTitle title).toList, c.isAlphanum = true ∨ c = '-' ∨ c = '_') ∧
      ('/' ∉ ext.toList →
        '/' ∉ (safeTitle title ++ "__" ++ randChoices r 7 ++ "." ++ ext).toList) := by
  intro dl r title ext
  have happ : ∀ a b : String, (a ++ b).toList = a.toList ++ b.toList := fun a b => rfl
  have hrandmem : ∀ c ∈ (randChoices r 7).toList, c.isLower = true ∨ c.isDigit = true := by
    intro c hc
    simp only [randChoices] at hc
    obtain ⟨i, hi, rfl⟩ := List.mem_map.mp hc
    have hlt : r i % saveAlphabet.length < saveAlphabet.toList.length := by
      have h36 : saveAlphabet.toList.length = saveAlphabet.length := rfl
      rw [h36]
      exact Nat.mod_lt _ (by decide)
    rw [List.getD_eq_getElem _ _ hlt]
    have hmem := List.getElem_mem hlt
    have hall : ∀ c ∈ saveAlphabet.toList, (c.isLower || c.isDigit) = true := by decide
    have := hall _ hmem
    rcases Bool.or_eq_true_iff.mp this with h | h
    · exact Or.inl h
    · exact Or.inr h
  have hsafemem : ∀ c ∈ (safeTitle title).toList,
      c.isAlphanum = true ∨ c = '-' ∨ c = '_' := by
    intro c hc
    simp only [safeTitle] at hc
    obtain ⟨d, hd, rfl⟩ := List.mem_map.mp hc
    by_cases hcond : (d.isAlphanum || d = '-' || d = '_') = true
    · unfold sanitizeChar
      rw [if_pos hcond]
      simpa [or_assoc] using hcond
    · unfold sanitizeChar
      rw [if_neg hcond]
      right; right; rfl
  refine ⟨?_, rfl, ?_, ?_, ?_, hrandmem, hsafemem, ?_⟩
  · simp [get_save_path, String.append_assoc]
  · intro c h
    rcases h with h | h | h
    · simp [sanitizeChar, h]
    · subst h; decide
    · subst h; decide
  · intro c h
    push_neg at h
    simp [sanitizeChar, h.1, h.2.1, h.2.2]
  · have hlen : (randChoices r 7).length =
        ((List.range 7).map (fun i =>
          saveAlphabet.toList.getD (r i % saveAlphabet.length) 'a')).length := rfl
    rw [hlen, List.length_map, List.length_range]
  · intro hext hmem
    rw [happ, happ, happ, happ] at hmem
    simp only [List.mem_append] at hmem
    rcases hmem with ((((h | h) | h) | h) | h)
    · have := hsafemem _ h
      revert this
      decide
    · revert h; decide
    · have := hrandmem _ h
      revert this
      decide
    · revert h; decide
    · exact hext h

/-- C10 witness: a title containing a path separator is defanged — the
saved file name contains no `/` after the download directory. -/
theorem c10_witness :
    '/' ∉ (safeTitle "a/b" ++ "__" ++ randChoices (fun _ => 0) 7 ++ "." ++ "pdf").toList :=
  (c10_save_path_safe "/home/user/Downloads" (fun _ => 0) "a/b" "pdf").2.2.2.2.2.2.2
    (by decide)

end DBrowser
